import Mathlib

/-!
# SceneManager: texture registry, material library and render-state binder

A shallow embedding of `SceneManager.cpp`.  Member functions become functions
on an explicit `SceneManager` state.  The collaborators that live outside the
file (the image codec, OpenGL, GLM and the `ShaderManager`) appear as inputs
or as small explicit models.  Operations whose C++ counterpart has undefined
behaviour on some inputs (an array access outside `m_textureIDs[16]`, a call
through a null `m_pShaderManager`) return `Except Fault _`.
-/

set_option autoImplicit false

/-- Ways in which an embedded operation can fail to produce a result. -/
inductive Fault where
  /-- an access to `m_textureIDs[i]` with `i` outside `0..15` -/
  | outOfBounds
  /-- a member call through `m_pShaderManager` while it is `NULL` -/
  | nullPointer
  /-- the iteration budget of an embedded `while` loop was exhausted -/
  | outOfFuel
deriving DecidableEq, Repr

deriving instance DecidableEq for Except

/-- Embeds `GLuint`: an unsigned 32-bit OpenGL object name. -/
abbrev GLuint := Fin 4294967296

/-- Conversion of a `GLuint` to a C++ `int` (two's complement, 32 bit). -/
def GLuint.toInt (u : GLuint) : Int :=
  if u.val < 2147483648 then (u.val : Int) else (u.val : Int) - 4294967296

/-- Conversion of a C++ `int` to a `GLuint` (reduction modulo `2^32`). -/
def GLuint.ofInt (i : Int) : GLuint :=
  ⟨(i % 4294967296).toNat, by omega⟩

/-- One entry of the texture table, `TEXTURE_INFO`.  The source passes the
address of `ID` to `glGenTextures` and assigns a `GLuint` to it, so the field
is an unsigned 32-bit name; `tag` is a `std::string`. -/
structure TEXTURE_INFO where
  tag : String
  ID : GLuint
deriving DecidableEq, Repr

namespace glm

/-- Embeds `glm::vec2` over the scalar type `α`. -/
structure vec2 (α : Type) where
  x : α
  y : α
deriving DecidableEq, Repr

/-- Embeds `glm::vec3` over the scalar type `α`. -/
structure vec3 (α : Type) where
  x : α
  y : α
  z : α
deriving DecidableEq, Repr

/-- Embeds `glm::vec4` over the scalar type `α`. -/
structure vec4 (α : Type) where
  x : α
  y : α
  z : α
  w : α
deriving DecidableEq, Repr

/-- Embeds `glm::mat4`: four columns, as GLM stores it (`m[c]` is column `c`). -/
structure mat4 (α : Type) where
  c0 : vec4 α
  c1 : vec4 α
  c2 : vec4 α
  c3 : vec4 α
deriving DecidableEq, Repr

/-- The `<cmath>` primitives GLM calls and its degree-to-radian factor, over
the scalar type `α` that stands for `float`. -/
structure Math (α : Type) where
  cos : α → α
  sin : α → α
  inversesqrt : α → α
  /-- the constant `0.01745329251994329576923690768489` of `glm::radians` -/
  radiansPerDegree : α

section
variable {α : Type} [Ring α]

/-- Embeds `glm::radians(degrees)`. -/
def radians (m : Math α) (degrees : α) : α :=
  degrees * m.radiansPerDegree

/-- Embeds `v * k` for a `vec3`. -/
def vec3.scaleBy (v : vec3 α) (k : α) : vec3 α :=
  ⟨v.x * k, v.y * k, v.z * k⟩

/-- Embeds `glm::dot` for `vec3`. -/
def dot (a b : vec3 α) : α :=
  a.x * b.x + a.y * b.y + a.z * b.z

/-- Embeds `glm::normalize(v) = v * inversesqrt(dot(v, v))`. -/
def normalize (m : Math α) (v : vec3 α) : vec3 α :=
  v.scaleBy (m.inversesqrt (dot v v))

/-- Embeds `v * k` for a `vec4`. -/
def vec4.scaleBy (v : vec4 α) (k : α) : vec4 α :=
  ⟨v.x * k, v.y * k, v.z * k, v.w * k⟩

/-- Embeds `a + b` for `vec4`. -/
def vec4.add (a b : vec4 α) : vec4 α :=
  ⟨a.x + b.x, a.y + b.y, a.z + b.z, a.w + b.w⟩

/-- Embeds `glm::mat4(1.0f)`, the identity. -/
def mat4.identity : mat4 α :=
  ⟨⟨1, 0, 0, 0⟩, ⟨0, 1, 0, 0⟩, ⟨0, 0, 1, 0⟩, ⟨0, 0, 0, 1⟩⟩

/-- The linear combination `m[0]*v.x + m[1]*v.y + m[2]*v.z + m[3]*v.w` of the
columns of `m`. -/
def mat4.combine (m : mat4 α) (v : vec4 α) : vec4 α :=
  (((m.c0.scaleBy v.x).add (m.c1.scaleBy v.y)).add (m.c2.scaleBy v.z)).add (m.c3.scaleBy v.w)

/-- Embeds `m1 * m2` for `mat4`: column `j` of the product is the combination of the
columns of `m1` with the entries of column `j` of `m2`. -/
def mat4.mul (m1 m2 : mat4 α) : mat4 α :=
  ⟨m1.combine m2.c0, m1.combine m2.c1, m1.combine m2.c2, m1.combine m2.c3⟩

/-- Embeds `glm::translate(m, v)`. -/
def translateM (m : mat4 α) (v : vec3 α) : mat4 α :=
  { m with c3 := (((m.c0.scaleBy v.x).add (m.c1.scaleBy v.y)).add (m.c2.scaleBy v.z)).add m.c3 }

/-- Embeds `glm::scale(m, v)`. -/
def scaleM (m : mat4 α) (v : vec3 α) : mat4 α :=
  ⟨m.c0.scaleBy v.x, m.c1.scaleBy v.y, m.c2.scaleBy v.z, m.c3⟩

/-- Embeds `glm::rotate(m, angle, v)`: the axis is normalised and the rotation built
from `cos(angle)` and `sin(angle)`, then applied to the first three columns. -/
def rotateM (mth : Math α) (m : mat4 α) (angle : α) (v : vec3 α) : mat4 α :=
  let c := mth.cos angle
  let s := mth.sin angle
  let axis := normalize mth v
  let temp := axis.scaleBy (1 - c)
  let r00 := c + temp.x * axis.x
  let r01 := temp.x * axis.y + s * axis.z
  let r02 := temp.x * axis.z - s * axis.y
  let r10 := temp.y * axis.x - s * axis.z
  let r11 := c + temp.y * axis.y
  let r12 := temp.y * axis.z + s * axis.x
  let r20 := temp.z * axis.x + s * axis.y
  let r21 := temp.z * axis.y - s * axis.x
  let r22 := c + temp.z * axis.z
  ⟨((m.c0.scaleBy r00).add (m.c1.scaleBy r01)).add (m.c2.scaleBy r02),
   ((m.c0.scaleBy r10).add (m.c1.scaleBy r11)).add (m.c2.scaleBy r12),
   ((m.c0.scaleBy r20).add (m.c1.scaleBy r21)).add (m.c2.scaleBy r22),
   m.c3⟩

/-- Embeds `glm::translate(v)` of `gtx/transform.hpp`. -/
def translate (v : vec3 α) : mat4 α :=
  translateM mat4.identity v

/-- Embeds `glm::scale(v)` of `gtx/transform.hpp`. -/
def scale (v : vec3 α) : mat4 α :=
  scaleM mat4.identity v

/-- Embeds `glm::rotate(angle, v)` of `gtx/transform.hpp`. -/
def rotate (mth : Math α) (angle : α) (v : vec3 α) : mat4 α :=
  rotateM mth mat4.identity angle v

/-- The entries of a `mat4` as a row/column-indexed matrix: entry `(i, j)` is
component `i` of column `j`. -/
def mat4.toMatrix (m : mat4 α) : Matrix (Fin 4) (Fin 4) α :=
  !![m.c0.x, m.c1.x, m.c2.x, m.c3.x;
     m.c0.y, m.c1.y, m.c2.y, m.c3.y;
     m.c0.z, m.c1.z, m.c2.z, m.c3.z;
     m.c0.w, m.c1.w, m.c2.w, m.c3.w]

end

end glm

/-- A material record: `OBJECT_MATERIAL`, with the fields the source uses. -/
structure OBJECT_MATERIAL (α : Type) where
  diffuseColor : glm.vec3 α
  specularColor : glm.vec3 α
  shininess : α
  tag : String
deriving DecidableEq, Repr

/-- The value carried by one uniform upload. -/
inductive UniformValue (α : Type) where
  | int (v : Int)
  | bool (v : Bool)
  | sampler2D (v : Int)
  | float (v : α)
  | vec2 (v : glm.vec2 α)
  | vec3 (v : glm.vec3 α)
  | vec4 (v : glm.vec4 α)
  | mat4 (v : glm.mat4 α)
deriving DecidableEq, Repr

/-- Modelled from the spec: the Shader Bridge (`ShaderManager`), whose code is
not part of `SceneManager.cpp`.  It offers named-uniform setters; the model
records every upload, most recent first, and the current value of a uniform is
the one uploaded last under its name. -/
structure ShaderManager (α : Type) where
  uploads : List (String × UniformValue α)
deriving DecidableEq, Repr

namespace ShaderManager

variable {α : Type}

/-- Current value of the uniform `name`, if it was ever uploaded. -/
def uniform (sm : ShaderManager α) (name : String) : Option (UniformValue α) :=
  sm.uploads.lookup name

def setIntValue (sm : ShaderManager α) (name : String) (v : Int) : ShaderManager α :=
  ⟨(name, UniformValue.int v) :: sm.uploads⟩

def setBoolValue (sm : ShaderManager α) (name : String) (v : Bool) : ShaderManager α :=
  ⟨(name, UniformValue.bool v) :: sm.uploads⟩

def setSampler2DValue (sm : ShaderManager α) (name : String) (v : Int) : ShaderManager α :=
  ⟨(name, UniformValue.sampler2D v) :: sm.uploads⟩

def setFloatValue (sm : ShaderManager α) (name : String) (v : α) : ShaderManager α :=
  ⟨(name, UniformValue.float v) :: sm.uploads⟩

def setVec2Value (sm : ShaderManager α) (name : String) (v : glm.vec2 α) : ShaderManager α :=
  ⟨(name, UniformValue.vec2 v) :: sm.uploads⟩

def setVec3Value (sm : ShaderManager α) (name : String) (v : glm.vec3 α) : ShaderManager α :=
  ⟨(name, UniformValue.vec3 v) :: sm.uploads⟩

def setVec4Value (sm : ShaderManager α) (name : String) (v : glm.vec4 α) : ShaderManager α :=
  ⟨(name, UniformValue.vec4 v) :: sm.uploads⟩

def setMat4Value (sm : ShaderManager α) (name : String) (v : glm.mat4 α) : ShaderManager α :=
  ⟨(name, UniformValue.mat4 v) :: sm.uploads⟩

end ShaderManager

/-! ## Uniform names (the anonymous namespace at the top of the file) -/

def g_ModelName : String := "model"
def g_ColorValueName : String := "objectColor"
def g_TextureValueName : String := "objectTexture"
def g_TextureOverlayValueName : String := "overlayTexture"
def g_UseTextureName : String := "bUseTexture"
def g_UseLightingName : String := "bUseLighting"
def g_UseTextureOverlayName : String := "bUseTextureOverlay"

/-- The members of `SceneManager` that the registry, the material library and
the binder use.  `m_pShaderManager = none` is the null pointer.  The table
`m_textureIDs` has exactly 16 entries.  The `int` counter `m_loadedTextures`
starts at 0 and is only ever incremented, so it is a natural number here.  The
mesh library `m_basicMeshes` plays no part in them and is left out. -/
structure SceneManager (α : Type) where
  m_pShaderManager : Option (ShaderManager α)
  m_textureIDs : Mathlib.Vector TEXTURE_INFO 16
  m_loadedTextures : Nat
  m_objectMaterials : List (OBJECT_MATERIAL α)
deriving DecidableEq

/-- What `stbi_load` reports for a decoded image. -/
structure Image where
  width : Int
  height : Int
  colorChannels : Int
deriving DecidableEq, Repr

namespace SceneManager

variable {α : Type}

/-- The constructor: every one of the 16 table entries gets the tag `"/0"` and
the ID `-1` (stored in a `GLuint`), the load counter is 0 and the material
vector is empty. -/
def new (pShaderManager : Option (ShaderManager α)) : SceneManager α :=
  { m_pShaderManager := pShaderManager
    m_textureIDs := Mathlib.Vector.replicate 16 ⟨"/0", GLuint.ofInt (-1)⟩
    m_loadedTextures := 0
    m_objectMaterials := [] }

/-- The array read `m_textureIDs[index]`. -/
def textureAt (s : SceneManager α) (index : Nat) : Except Fault TEXTURE_INFO :=
  if h : index < 16 then Except.ok (s.m_textureIDs.get ⟨index, h⟩)
  else Except.error Fault.outOfBounds

/-- The `while` loop of `FindTextureID`, with the locals `index`, `textureID`
and `bFound` as arguments; each run of the loop body uses one unit of fuel. -/
def FindTextureID.loop (s : SceneManager α) (tag : String) :
    Nat → Nat → Int → Bool → Except Fault Int
  | fuel, index, textureID, bFound =>
    if index < s.m_loadedTextures ∧ bFound = false then
      match fuel with
      | 0 => Except.error Fault.outOfFuel
      | fuel + 1 =>
        match s.textureAt index with
        | Except.error e => Except.error e
        | Except.ok r =>
          if r.tag = tag then FindTextureID.loop s tag fuel index r.ID.toInt true
          else FindTextureID.loop s tag fuel (index + 1) textureID bFound
    else Except.ok textureID

/-- Embeds `FindTextureID(tag)`: the handle for a tag, `-1` when no record matches. -/
def FindTextureID (s : SceneManager α) (tag : String) : Except Fault Int :=
  FindTextureID.loop s tag s.m_loadedTextures 0 (-1) false

/-- The `while` loop of `FindTextureSlot`, with the locals `index`,
`textureSlot` and `bFound` as arguments. -/
def FindTextureSlot.loop (s : SceneManager α) (tag : String) :
    Nat → Nat → Int → Bool → Except Fault Int
  | fuel, index, textureSlot, bFound =>
    if index < s.m_loadedTextures ∧ bFound = false then
      match fuel with
      | 0 => Except.error Fault.outOfFuel
      | fuel + 1 =>
        match s.textureAt index with
        | Except.error e => Except.error e
        | Except.ok r =>
          if r.tag = tag then FindTextureSlot.loop s tag fuel index (index : Int) true
          else FindTextureSlot.loop s tag fuel (index + 1) textureSlot bFound
    else Except.ok textureSlot

/-- Embeds `FindTextureSlot(tag)`: the slot for a tag, `-1` when no record matches. -/
def FindTextureSlot (s : SceneManager α) (tag : String) : Except Fault Int :=
  FindTextureSlot.loop s tag s.m_loadedTextures 0 (-1) false

/-- Embeds `CreateGLTexture(filename, tag)`.  `image` is what `stbi_load` returns for
the file (`none` is the null pointer) and `textureID` the name `glGenTextures`
hands out.  The other OpenGL calls act on OpenGL state only. -/
def CreateGLTexture (s : SceneManager α) (image : Option Image) (textureID : GLuint)
    (tag : String) : Except Fault (Bool × SceneManager α) :=
  match image with
  | some img =>
    if img.colorChannels = 3 ∨ img.colorChannels = 4 then
      if h : s.m_loadedTextures < 16 then
        Except.ok (true,
          { s with
            m_textureIDs := s.m_textureIDs.set ⟨s.m_loadedTextures, h⟩ ⟨tag, textureID⟩
            m_loadedTextures := s.m_loadedTextures + 1 })
      else Except.error Fault.outOfBounds
    else Except.ok (false, s)
  | none => Except.ok (false, s)

/-- The `while` loop of `FindMaterial`, with the locals `index` and `bFound`
and the caller's `material` as arguments. -/
def FindMaterial.loop (s : SceneManager α) (tag : String) :
    Nat → Nat → Bool → OBJECT_MATERIAL α → Except Fault (OBJECT_MATERIAL α)
  | fuel, index, bFound, material =>
    if index < s.m_objectMaterials.length ∧ bFound = false then
      match fuel with
      | 0 => Except.error Fault.outOfFuel
      | fuel + 1 =>
        match s.m_objectMaterials[index]? with
        | none => Except.error Fault.outOfBounds
        | some r =>
          if r.tag = tag then
            FindMaterial.loop s tag fuel index true
              { material with
                diffuseColor := r.diffuseColor
                specularColor := r.specularColor
                shininess := r.shininess }
          else FindMaterial.loop s tag fuel (index + 1) bFound material
    else Except.ok material

/-- Embeds `FindMaterial(tag, material)`: the returned pair is the `bool` result and
the caller's `material` after the call. -/
def FindMaterial (s : SceneManager α) (tag : String) (material : OBJECT_MATERIAL α) :
    Except Fault (Bool × OBJECT_MATERIAL α) :=
  if s.m_objectMaterials.length = 0 then Except.ok (false, material)
  else
    match FindMaterial.loop s tag s.m_objectMaterials.length 0 false material with
    | Except.error e => Except.error e
    | Except.ok m => Except.ok (true, m)

/-- A `bool` argument passed to `setIntValue`. -/
def boolToInt (b : Bool) : Int :=
  if b then 1 else 0

/-- Embeds `SetTransformations(scaleXYZ, X, Y, Z, positionXYZ)`. -/
def SetTransformations [Ring α] (mth : glm.Math α) (s : SceneManager α) (scaleXYZ : glm.vec3 α)
    (XrotationDegrees YrotationDegrees ZrotationDegrees : α) (positionXYZ : glm.vec3 α) :
    SceneManager α :=
  let scale := glm.scale scaleXYZ
  let rotationX := glm.rotate mth (glm.radians mth XrotationDegrees) ⟨1, 0, 0⟩
  let rotationY := glm.rotate mth (glm.radians mth YrotationDegrees) ⟨0, 1, 0⟩
  let rotationZ := glm.rotate mth (glm.radians mth ZrotationDegrees) ⟨0, 0, 1⟩
  let translation := glm.translate positionXYZ
  let modelView := (((translation.mul rotationZ).mul rotationY).mul rotationX).mul scale
  match s.m_pShaderManager with
  | some sm => { s with m_pShaderManager := some (sm.setMat4Value g_ModelName modelView) }
  | none => s

/-- Embeds `SetShaderColor(r, g, b, a)`. -/
def SetShaderColor (s : SceneManager α)
    (redColorValue greenColorValue blueColorValue alphaValue : α) : SceneManager α :=
  let currentColor : glm.vec4 α := ⟨redColorValue, greenColorValue, blueColorValue, alphaValue⟩
  match s.m_pShaderManager with
  | some sm =>
    { s with
      m_pShaderManager :=
        some ((sm.setIntValue g_UseTextureName (boolToInt false)).setVec4Value
          g_ColorValueName currentColor) }
  | none => s

/-- Embeds `SetShaderTexture(textureTag)`. -/
def SetShaderTexture (s : SceneManager α) (textureTag : String) :
    Except Fault (SceneManager α) :=
  match s.m_pShaderManager with
  | some sm =>
    let sm1 := sm.setIntValue g_UseTextureName (boolToInt true)
    match s.FindTextureSlot textureTag with
    | Except.error e => Except.error e
    | Except.ok textureID =>
      Except.ok { s with
        m_pShaderManager := some (sm1.setSampler2DValue g_TextureValueName textureID) }
  | none => Except.ok s

/-- Embeds `SetShaderTextureOverlay(textureTag)`. -/
def SetShaderTextureOverlay (s : SceneManager α) (textureTag : String) :
    Except Fault (SceneManager α) :=
  match s.m_pShaderManager with
  | some sm =>
    if textureTag.length > 0 then
      let sm1 := sm.setIntValue g_UseTextureOverlayName (boolToInt true)
      match s.FindTextureSlot textureTag with
      | Except.error e => Except.error e
      | Except.ok textureID =>
        Except.ok { s with
          m_pShaderManager := some (sm1.setSampler2DValue g_TextureOverlayValueName textureID) }
    else
      Except.ok { s with
        m_pShaderManager := some (sm.setIntValue g_UseTextureOverlayName (boolToInt false)) }
  | none => Except.ok s

/-- Embeds `SetTextureUVScale(u, v)`. -/
def SetTextureUVScale (s : SceneManager α) (u v : α) : SceneManager α :=
  match s.m_pShaderManager with
  | some sm => { s with m_pShaderManager := some (sm.setVec2Value "UVscale" ⟨u, v⟩) }
  | none => s

/-- Embeds `m_objectMaterials.push_back(material)`, the step `DefineObjectMaterials`
repeats for every material it defines. -/
def push_back (s : SceneManager α) (material : OBJECT_MATERIAL α) : SceneManager α :=
  { s with m_objectMaterials := s.m_objectMaterials ++ [material] }

end SceneManager

/-- The inputs of one `CreateGLTexture` call: the codec's answer for the file,
the name OpenGL generates, and the tag. -/
structure LoadCall where
  image : Option Image
  textureID : GLuint
  tag : String
deriving DecidableEq, Repr

/-- The call decodes to an image with 3 or 4 channels. -/
def LoadCall.decodes (c : LoadCall) : Bool :=
  match c.image with
  | some img => decide (img.colorChannels = 3 ∨ img.colorChannels = 4)
  | none => false

/-- The calls of a sequence that decode, in order. -/
def LoadCall.successes (calls : List LoadCall) : List LoadCall :=
  calls.filter LoadCall.decodes

namespace SceneManager

variable {α : Type}

/-- A run of `CreateGLTexture` calls one after the other, the `bool` results
dropped, as in `LoadSceneTextures`. -/
def loadSequence (s : SceneManager α) : List LoadCall → Except Fault (SceneManager α)
  | [] => Except.ok s
  | c :: cs =>
    match s.CreateGLTexture c.image c.textureID c.tag with
    | Except.error e => Except.error e
    | Except.ok (_, s1) => loadSequence s1 cs

end SceneManager

/-- The part of the OpenGL context that `BindGLTextures` acts on: the active
texture unit (`GL_TEXTURE0 + i` is unit `i`) and the `GL_TEXTURE_2D` binding of
every unit. -/
structure GLState where
  activeTexture : Nat
  boundTexture2D : Nat → GLuint

/-- Embeds `glActiveTexture(GL_TEXTURE0 + i)`. -/
def GLState.glActiveTexture (gl : GLState) (i : Nat) : GLState :=
  { gl with activeTexture := i }

/-- Embeds `glBindTexture(GL_TEXTURE_2D, texture)`: the binding of the active
unit changes. -/
def GLState.glBindTexture2D (gl : GLState) (texture : GLuint) : GLState :=
  { gl with boundTexture2D := Function.update gl.boundTexture2D gl.activeTexture texture }

namespace SceneManager

variable {α : Type}

/-- Embeds `SetShaderMaterial(materialTag)`.  The argument `material` stands
for the local `OBJECT_MATERIAL material;`, which the source declares without
initialising it.  The uploads go through `m_pShaderManager` unguarded. -/
def SetShaderMaterial (s : SceneManager α) (materialTag : String)
    (material : OBJECT_MATERIAL α) : Except Fault (SceneManager α) :=
  if s.m_objectMaterials.length > 0 then
    match s.FindMaterial materialTag material with
    | Except.error e => Except.error e
    | Except.ok (bReturn, found) =>
      if bReturn = true then
        match s.m_pShaderManager with
        | none => Except.error Fault.nullPointer
        | some sm =>
          Except.ok { s with
            m_pShaderManager :=
              some (((sm.setVec3Value "material.diffuseColor" found.diffuseColor).setVec3Value
                "material.specularColor" found.specularColor).setFloatValue
                "material.shininess" found.shininess) }
      else Except.ok s
  else Except.ok s

/-- The `for` loop of `BindGLTextures`, with the loop variable `i` as an
argument. -/
def BindGLTextures.loop (s : SceneManager α) : Nat → Nat → GLState → Except Fault GLState
  | fuel, i, gl =>
    if i < s.m_loadedTextures then
      match fuel with
      | 0 => Except.error Fault.outOfFuel
      | fuel + 1 =>
        match s.textureAt i with
        | Except.error e => Except.error e
        | Except.ok r =>
          BindGLTextures.loop s fuel (i + 1) ((gl.glActiveTexture i).glBindTexture2D r.ID)
    else Except.ok gl

/-- Embeds `BindGLTextures()`: the manager and the OpenGL state after the
call. -/
def BindGLTextures (s : SceneManager α) (gl : GLState) :
    Except Fault (SceneManager α × GLState) :=
  match BindGLTextures.loop s s.m_loadedTextures 0 gl with
  | Except.error e => Except.error e
  | Except.ok gl1 => Except.ok (s, gl1)

/-- The `for` loop of `DestroyGLTextures`: `glGenTextures(1, &m_textureIDs[i].ID)`
stores a newly generated name, `names i`, into the `ID` of entry `i`. -/
def DestroyGLTextures.loop (names : Nat → GLuint) :
    Nat → Nat → SceneManager α → Except Fault (SceneManager α)
  | fuel, i, s =>
    if i < s.m_loadedTextures then
      match fuel with
      | 0 => Except.error Fault.outOfFuel
      | fuel + 1 =>
        if h : i < 16 then
          DestroyGLTextures.loop names fuel (i + 1)
            { s with
              m_textureIDs :=
                s.m_textureIDs.set ⟨i, h⟩ { s.m_textureIDs.get ⟨i, h⟩ with ID := names i } }
        else Except.error Fault.outOfBounds
    else Except.ok s

/-- Embeds `DestroyGLTextures()`; `names i` is the name OpenGL generates in
iteration `i`. -/
def DestroyGLTextures (s : SceneManager α) (names : Nat → GLuint) :
    Except Fault (SceneManager α) :=
  DestroyGLTextures.loop names s.m_loadedTextures 0 s

end SceneManager

/-! ## Scene preparation and rendering -/

namespace SceneManager

variable {α : Type}

/-- The inputs of the twelve `CreateGLTexture` calls of `LoadSceneTextures()`,
in source order.  The function `stbi_load` gives the codec's answer for a file
name and `names k` is the name OpenGL generates for call `k`. -/
def LoadSceneTextures.calls (stbi_load : String → Option Image) (names : Nat → GLuint) :
    List LoadCall :=
  [⟨stbi_load "textures/wood_cherry_seamless.jpg", names 0, "Wood Table"⟩,
   ⟨stbi_load "textures/ERainbowOverlay2.png", names 1, "Cylinder Overlay"⟩,
   ⟨stbi_load "textures/VaseStripes2.png", names 2, "Stripes2"⟩,
   ⟨stbi_load "textures/wood_black_seamless.jpg", names 3, "Black Wood"⟩,
   ⟨stbi_load "textures/transparent.png", names 4, "transparent"⟩,
   ⟨stbi_load "textures/GoldLeaves.png", names 5, "Gold Leaves"⟩,
   ⟨stbi_load "textures/GoldLeavesSides.png", names 6, "Gold Leaves2"⟩,
   ⟨stbi_load "textures/CandleHolder.png", names 7, "Candle Holder"⟩,
   ⟨stbi_load "textures/WetGlass.jpg", names 8, "Wet Glass"⟩,
   ⟨stbi_load "textures/pumpkin_texture3.jpg", names 9, "Pumpkin3"⟩,
   ⟨stbi_load "textures/Pumpkinbark.jpg", names 10, "Stem"⟩,
   ⟨stbi_load "textures/bricks_weathered_seamless2.jpg", names 11, "backdrop2"⟩]

/-- Embeds `LoadSceneTextures()`: the twelve calls run one after the other,
their results dropped. -/
def LoadSceneTextures (s : SceneManager α) (stbi_load : String → Option Image)
    (names : Nat → GLuint) : Except Fault (SceneManager α) :=
  s.loadSequence (LoadSceneTextures.calls stbi_load names)

/-- Embeds `DefineObjectMaterials()`: six `push_back` calls, each record given
as diffuse colour, specular colour, shininess and tag. -/
def DefineObjectMaterials [Field α] (s : SceneManager α) : SceneManager α :=
  s
    |>.push_back ⟨⟨0.2, 0.2, 0.2⟩, ⟨0.7, 0.7, 0.7⟩, 42.0, "metal"⟩
    |>.push_back ⟨⟨0.6, 0.35, 0.2⟩, ⟨0.2, 0.2, 0.2⟩, 8.0, "wood"⟩
    |>.push_back ⟨⟨0.4, 0.4, 0.5⟩, ⟨1.0, 1.0, 1.0⟩, 95.0, "glass"⟩
    |>.push_back ⟨⟨0.3, 0.3, 0.2⟩, ⟨0.6, 0.5, 0.4⟩, 22.0, "gold"⟩
    |>.push_back ⟨⟨0.3, 0.2, 0.1⟩, ⟨0.4, 0.5, 0.6⟩, 25.0, "tile"⟩
    |>.push_back ⟨⟨0.4, 0.4, 0.4⟩, ⟨0.0, 0.0, 0.0⟩, 0.02, "backdrop"⟩

/-- Embeds `SetupSceneLights()`: 40 uploads through `m_pShaderManager`, which
the source dereferences without a null check. -/
def SetupSceneLights [Field α] (mth : glm.Math α) (s : SceneManager α) :
    Except Fault (SceneManager α) :=
  match s.m_pShaderManager with
  | none => Except.error Fault.nullPointer
  | some sm =>
    Except.ok { s with
      m_pShaderManager := some (sm
        |>.setBoolValue g_UseLightingName true
        |>.setVec3Value "directionalLight.direction" ⟨(-0.1), (-0.3), (-0.2)⟩
        |>.setVec3Value "directionalLight.ambient" ⟨0.5, 0.5, 0.5⟩
        |>.setVec3Value "directionalLight.diffuse" ⟨0.25, 0.25, 0.30⟩
        |>.setVec3Value "directionalLight.specular" ⟨0.05, 0.05, 0.05⟩
        |>.setBoolValue "directionalLight.bActive" true
        |>.setVec3Value "pointLights[0].position" ⟨0.0, 5.0, 0.0⟩
        |>.setVec3Value "pointLights[0].ambient" ⟨0.15, 0.15, 0.15⟩
        |>.setVec3Value "pointLights[0].diffuse" ⟨0.5, 0.5, 0.5⟩
        |>.setVec3Value "pointLights[0].specular" ⟨0.5, 0.5, 0.5⟩
        |>.setBoolValue "pointLights[0].bActive" true
        |>.setVec3Value "pointLights[1].position" ⟨(-3.0), 7.0, (-3.0)⟩
        |>.setVec3Value "pointLights[1].ambient" ⟨0.05, 0.05, 0.05⟩
        |>.setVec3Value "pointLights[1].diffuse" ⟨0.4, 0.3, 0.4⟩
        |>.setVec3Value "pointLights[1].specular" ⟨0.2, 0.2, 0.2⟩
        |>.setBoolValue "pointLights[1].bActive" true
        |>.setVec3Value "pointLights[2].position" ⟨(-3.0), 7.0, 3.0⟩
        |>.setVec3Value "pointLights[2].ambient" ⟨0.05, 0.05, 0.05⟩
        |>.setVec3Value "pointLights[2].diffuse" ⟨0.4, 0.3, 0.4⟩
        |>.setVec3Value "pointLights[2].specular" ⟨0.2, 0.3, 0.2⟩
        |>.setBoolValue "pointLights[2].bActive" true
        |>.setVec3Value "pointLights[3].position" ⟨0.0, 2.0, (-7.0)⟩
        |>.setVec3Value "pointLights[3].ambient" ⟨0.05, 0.05, 0.05⟩
        |>.setVec3Value "pointLights[3].diffuse" ⟨0.5, 0.5, 0.5⟩
        |>.setVec3Value "pointLights[3].specular" ⟨0.1, 0.1, 0.1⟩
        |>.setBoolValue "pointLights[3].bActive" true
        |>.setVec3Value "pointLights[4].position" ⟨3.2, 6.0, 4.0⟩
        |>.setVec3Value "pointLights[4].ambient" ⟨0.05, 0.05, 0.05⟩
        |>.setVec3Value "pointLights[4].diffuse" ⟨0.5, 0.5, 0.5⟩
        |>.setVec3Value "pointLights[4].specular" ⟨0.1, 0.1, 0.1⟩
        |>.setBoolValue "pointLights[4].bActive" true
        |>.setVec3Value "spotLight.ambient" ⟨0.3, 0.3, 0.3⟩
        |>.setVec3Value "spotLight.diffuse" ⟨0.8, 0.8, 0.8⟩
        |>.setVec3Value "spotLight.specular" ⟨0.4, 0.4, 0.4⟩
        |>.setFloatValue "spotLight.constant" 1.0
        |>.setFloatValue "spotLight.linear" 0.09
        |>.setFloatValue "spotLight.quadratic" 0.032
        |>.setFloatValue "spotLight.cutOff" (mth.cos (glm.radians mth 42.5))
        |>.setFloatValue "spotLight.outerCutOff" (mth.cos (glm.radians mth 48.0))
        |>.setBoolValue "spotLight.bActive" true) }

/-- Embeds `PrepareScene()`.  The six mesh loads act on the mesh library only
and are left out; the rest runs in source order. -/
def PrepareScene [Field α] (mth : glm.Math α) (s : SceneManager α)
    (stbi_load : String → Option Image) (names : Nat → GLuint) (gl : GLState) :
    Except Fault (SceneManager α × GLState) :=
  match s.LoadSceneTextures stbi_load names with
  | Except.error e => Except.error e
  | Except.ok s1 =>
    match s1.BindGLTextures gl with
    | Except.error e => Except.error e
    | Except.ok (s2, gl2) =>
      match s2.DefineObjectMaterials.SetupSceneLights mth with
      | Except.error e => Except.error e
      | Except.ok s4 => Except.ok (s4, gl2)

/-- One statement of `RenderScene()` that calls a binder operation or the mesh
library.  The assignments to `scaleXYZ`, the three rotation angles and
`positionXYZ` are folded into the `SetTransformations` call that reads them. -/
inductive Step (α : Type) where
  | setTransformations (scaleXYZ : glm.vec3 α)
      (XrotationDegrees YrotationDegrees ZrotationDegrees : α) (positionXYZ : glm.vec3 α)
  | setShaderColor (redColorValue greenColorValue blueColorValue alphaValue : α)
  | setShaderTexture (textureTag : String)
  | setShaderTextureOverlay (textureTag : String)
  | setTextureUVScale (u v : α)
  | setShaderMaterial (materialTag : String)
  /-- a call into the mesh library `m_basicMeshes`, named by its text -/
  | draw (call : String)

/-- The statements of `RenderScene()`, in source order. -/
def RenderScene.steps [Field α] : List (Step α) :=
  [Step.setTransformations ⟨30.0, 1.0, 10.0⟩ 0.0 0.0 0.0 ⟨0.0, (-0.5), 0.0⟩,
   Step.setShaderTexture "Wood Table",
   Step.setTextureUVScale 1.0 1.0,
   Step.setShaderMaterial "wood",
   Step.draw "DrawBoxMesh()",
   Step.setTransformations ⟨20.0, 1.0, 10.0⟩ 90.0 0.0 0.0 ⟨0.0, 10.0, (-5.0)⟩,
   Step.setShaderTexture "backdrop2",
   Step.setTextureUVScale 1.0 1.0,
   Step.setShaderMaterial "backdrop",
   Step.draw "DrawPlaneMesh()",
   Step.setTransformations ⟨1.3, 1.35, 0.7⟩ 90.0 0.0 0.0 ⟨6.0, 0.2, 0.0⟩,
   Step.setShaderTexture "Wet Glass",
   Step.setTextureUVScale 0.2 0.2,
   Step.setShaderMaterial "glass",
   Step.draw "DrawTorusMesh()",
   Step.setTransformations ⟨1.4, 1.6, 1.4⟩ 0.0 (-10.0) 0.0 ⟨6.0, 0.3, 0.0⟩,
   Step.setShaderTexture "Candle Holder",
   Step.setShaderTextureOverlay "Cylinder Overlay",
   Step.setTextureUVScale 2.0 1.0,
   Step.setShaderMaterial "glass",
   Step.draw "DrawCylinderMesh(false, false, true)",
   Step.setShaderTextureOverlay "",
   Step.setTransformations ⟨1.37, 1.37, 1.37⟩ 15.0 20.0 90.0 ⟨6.0, 2.0, 0.0⟩,
   Step.setShaderTexture "Candle Holder",
   Step.setTextureUVScale 0.8 0.8,
   Step.setShaderMaterial "glass",
   Step.draw "DrawSphereMesh()",
   Step.setTransformations ⟨0.3, 0.5, 0.3⟩ 0.0 0.0 0.0 ⟨6.0, 3.5, 0.0⟩,
   Step.setShaderTexture "Candle Holder",
   Step.setTextureUVScale 0.8 0.8,
   Step.setShaderMaterial "glass",
   Step.draw "DrawSphereMesh()",
   Step.setTransformations ⟨1.2, 7.0, 1.2⟩ 0.0 0.0 0.0 ⟨2.0, 0.2, (-0.8)⟩,
   Step.setShaderTexture "Stripes2",
   Step.setTextureUVScale 1.0 1.0,
   Step.setShaderMaterial "glass",
   Step.draw "DrawCylinderMesh(false, false, true)",
   Step.setShaderTexture "transparent",
   Step.setTextureUVScale 1.0 1.0,
   Step.draw "DrawCylinderMesh(true, false, false)",
   Step.setShaderTexture "Black Wood",
   Step.setTextureUVScale 1.0 1.0,
   Step.setShaderMaterial "wood",
   Step.draw "DrawCylinderMesh(false, true, false)",
   Step.setTransformations ⟨4.0, 5.0, 0.1⟩ (-20.0) 0.0 0.0 ⟨(-2.0), 2.5, 0.0⟩,
   Step.setShaderColor 0.95 0.90 0.80 1.0,
   Step.draw "DrawBoxMeshSide(ShapeMeshes::box_front)",
   Step.setShaderColor 0.65 0.45 0.20 1.0,
   Step.draw "DrawBoxMeshSide(ShapeMeshes::box_back)",
   Step.draw "DrawBoxMeshSide(ShapeMeshes::box_left)",
   Step.draw "DrawBoxMeshSide(ShapeMeshes::box_right)",
   Step.draw "DrawBoxMeshSide(ShapeMeshes::box_top)",
   Step.draw "DrawBoxMeshSide(ShapeMeshes::box_bottom)",
   Step.setShaderMaterial "wood",
   Step.setTransformations ⟨4.0, 5.0, 0.1⟩ (-20.0) 0.0 0.0 ⟨(-2.0), 2.5, (-0.1)⟩,
   Step.setShaderColor 0.65 0.45 0.20 1.0,
   Step.setShaderMaterial "wood",
   Step.draw "DrawBoxMesh()",
   Step.setTransformations ⟨4.1, 0.7, 0.15⟩ (-20.0) 0.0 0.0 ⟨(-2.0), 4.6, (-0.7)⟩,
   Step.setShaderTexture "Gold Leaves",
   Step.setTextureUVScale 0.9 0.3,
   Step.setShaderMaterial "gold",
   Step.draw "DrawBoxMesh()",
   Step.setTransformations ⟨4.1, 0.7, 0.15⟩ 20.0 0.0 180.0 ⟨(-2.0), 0.5, 0.8⟩,
   Step.setShaderTexture "Gold Leaves",
   Step.setTextureUVScale 0.9 0.3,
   Step.setShaderMaterial "gold",
   Step.draw "DrawBoxMesh()",
   Step.setTransformations ⟨0.7, 3.8, 0.10⟩ 20.0 0.0 180.0 ⟨(-3.7), 2.6, 0.05⟩,
   Step.setShaderTexture "Gold Leaves2",
   Step.setTextureUVScale 0.3 0.9,
   Step.setShaderMaterial "gold",
   Step.draw "DrawBoxMesh()",
   Step.setTransformations ⟨0.7, 3.8, 0.10⟩ (-20.0) 0.0 0.0 ⟨(-0.3), 2.6, 0.05⟩,
   Step.setShaderTexture "Gold Leaves2",
   Step.setTextureUVScale 0.3 0.9,
   Step.setShaderMaterial "gold",
   Step.draw "DrawBoxMesh()",
   Step.setTransformations ⟨0.7, 3.0, 0.1⟩ 30.0 0.0 0.0 ⟨(-1.5), 1.5, (-1.0)⟩,
   Step.setShaderColor 0.65 0.45 0.20 1.0,
   Step.setShaderMaterial "wood",
   Step.draw "DrawBoxMesh()",
   Step.setTransformations ⟨2.1, 1.8, 1.5⟩ 0.0 0.0 (-35.0) ⟨(-7.0), 1.4, (-0.3)⟩,
   Step.setShaderTexture "Pumpkin3",
   Step.setTextureUVScale 1.0 1.0,
   Step.setShaderMaterial "glass",
   Step.draw "DrawSphereMesh()",
   Step.setTransformations ⟨0.5, 0.7, 0.5⟩ 0.0 0.0 (-10.0) ⟨(-7.1), 3.1, (-0.3)⟩,
   Step.setShaderTexture "Stem",
   Step.setTextureUVScale 1.0 1.0,
   Step.setShaderMaterial "wood",
   Step.draw "DrawTaperedCylinderMesh()"]

/-- The effect of one statement on the manager.  The argument `material` stands
for the uninitialised local of `SetShaderMaterial`; a draw call leaves the
manager as it is. -/
def Step.run [Field α] (mth : glm.Math α) (material : OBJECT_MATERIAL α) (s : SceneManager α) :
    Step α → Except Fault (SceneManager α)
  | Step.setTransformations scaleXYZ x y z positionXYZ =>
    Except.ok (s.SetTransformations mth scaleXYZ x y z positionXYZ)
  | Step.setShaderColor r g b a => Except.ok (s.SetShaderColor r g b a)
  | Step.setShaderTexture textureTag => s.SetShaderTexture textureTag
  | Step.setShaderTextureOverlay textureTag => s.SetShaderTextureOverlay textureTag
  | Step.setTextureUVScale u v => Except.ok (s.SetTextureUVScale u v)
  | Step.setShaderMaterial materialTag => s.SetShaderMaterial materialTag material
  | Step.draw _ => Except.ok s

/-- A run of statements one after the other. -/
def runSteps [Field α] (mth : glm.Math α) (material : OBJECT_MATERIAL α) :
    SceneManager α → List (Step α) → Except Fault (SceneManager α)
  | s, [] => Except.ok s
  | s, step :: rest =>
    match step.run mth material s with
    | Except.error e => Except.error e
    | Except.ok s1 => runSteps mth material s1 rest

/-- Embeds `RenderScene()`. -/
def RenderScene [Field α] (mth : glm.Math α) (material : OBJECT_MATERIAL α)
    (s : SceneManager α) : Except Fault (SceneManager α) :=
  runSteps mth material s RenderScene.steps

/-- The tags `RenderScene` hands to `SetShaderTexture` and, when not empty, to
`SetShaderTextureOverlay`, in source order. -/
def Step.textureTags : List (Step α) → List String
  | [] => []
  | Step.setShaderTexture textureTag :: rest => textureTag :: Step.textureTags rest
  | Step.setShaderTextureOverlay textureTag :: rest =>
    if textureTag.length > 0 then textureTag :: Step.textureTags rest
    else Step.textureTags rest
  | _ :: rest => Step.textureTags rest

/-- The tags `RenderScene` hands to `SetShaderMaterial`, in source order. -/
def Step.materialTags : List (Step α) → List String
  | [] => []
  | Step.setShaderMaterial materialTag :: rest => materialTag :: Step.materialTags rest
  | _ :: rest => Step.materialTags rest

end SceneManager

/-! ## The model transform in the words of the specification -/

namespace Spec

variable {α : Type} [Ring α]

/-- Matrix `Translate(position)`: the identity with the position in the last column. -/
def Translate (p : glm.vec3 α) : Matrix (Fin 4) (Fin 4) α :=
  !![1, 0, 0, p.x;
     0, 1, 0, p.y;
     0, 0, 1, p.z;
     0, 0, 0, 1]

/-- Matrix `Scale(scale)`: the diagonal matrix of the three factors. -/
def Scale (k : glm.vec3 α) : Matrix (Fin 4) (Fin 4) α :=
  !![k.x, 0, 0, 0;
     0, k.y, 0, 0;
     0, 0, k.z, 0;
     0, 0, 0, 1]

/-- Matrix `RotateX`: the rotation about the x axis whose angle has cosine `c` and
sine `s`. -/
def RotateX (c s : α) : Matrix (Fin 4) (Fin 4) α :=
  !![1, 0, 0, 0;
     0, c, -s, 0;
     0, s, c, 0;
     0, 0, 0, 1]

/-- Matrix `RotateY`: the rotation about the y axis whose angle has cosine `c` and
sine `s`. -/
def RotateY (c s : α) : Matrix (Fin 4) (Fin 4) α :=
  !![c, 0, s, 0;
     0, 1, 0, 0;
     -s, 0, c, 0;
     0, 0, 0, 1]

/-- Matrix `RotateZ`: the rotation about the z axis whose angle has cosine `c` and
sine `s`. -/
def RotateZ (c s : α) : Matrix (Fin 4) (Fin 4) α :=
  !![c, -s, 0, 0;
     s, c, 0, 0;
     0, 0, 1, 0;
     0, 0, 0, 1]

end Spec

/-! ## Sample inputs -/

namespace Sample

/-- Three calls: "Wood" decodes, the first "Glass" does not, the second does. -/
def woodGlass : List LoadCall :=
  [⟨some ⟨8, 8, 3⟩, 1, "Wood"⟩, ⟨none, 2, "Glass"⟩, ⟨some ⟨8, 8, 4⟩, 3, "Glass"⟩]

/-- Sixteen decodable calls: the twelve tags of `LoadSceneTextures` and four
more. -/
def sixteen : List LoadCall :=
  [⟨some ⟨64, 64, 3⟩, 1, "Wood Table"⟩,
   ⟨some ⟨64, 64, 4⟩, 2, "Cylinder Overlay"⟩,
   ⟨some ⟨64, 64, 3⟩, 3, "Stripes2"⟩,
   ⟨some ⟨64, 64, 4⟩, 4, "Black Wood"⟩,
   ⟨some ⟨64, 64, 3⟩, 5, "transparent"⟩,
   ⟨some ⟨64, 64, 4⟩, 6, "Gold Leaves"⟩,
   ⟨some ⟨64, 64, 3⟩, 7, "Gold Leaves2"⟩,
   ⟨some ⟨64, 64, 4⟩, 8, "Candle Holder"⟩,
   ⟨some ⟨64, 64, 3⟩, 9, "Wet Glass"⟩,
   ⟨some ⟨64, 64, 4⟩, 10, "Pumpkin3"⟩,
   ⟨some ⟨64, 64, 3⟩, 11, "Stem"⟩,
   ⟨some ⟨64, 64, 4⟩, 12, "backdrop2"⟩,
   ⟨some ⟨64, 64, 3⟩, 13, "extra13"⟩,
   ⟨some ⟨64, 64, 4⟩, 14, "extra14"⟩,
   ⟨some ⟨64, 64, 3⟩, 15, "extra15"⟩,
   ⟨some ⟨64, 64, 4⟩, 16, "extra16"⟩]

/-- A decodable seventeenth call. -/
def seventeenth : LoadCall :=
  ⟨some ⟨64, 64, 3⟩, 17, "extra17"⟩

/-- A manager with a shader manager and two textures, "Wood" in slot 0 and
"Glass" in slot 1. -/
def twoLoaded : SceneManager ℚ :=
  { m_pShaderManager := some ⟨[]⟩
    m_textureIDs :=
      ((Mathlib.Vector.replicate 16 ⟨"/0", GLuint.ofInt (-1)⟩).set 0 ⟨"Wood", 1⟩).set 1
        ⟨"Glass", 3⟩
    m_loadedTextures := 2
    m_objectMaterials := [] }

/-- Two materials tagged as in `DefineObjectMaterials`, with whole-number
field values. -/
def library : List (OBJECT_MATERIAL ℚ) :=
  [⟨⟨2, 2, 2⟩, ⟨7, 7, 7⟩, 42, "metal"⟩,
   ⟨⟨6, 3, 2⟩, ⟨2, 2, 2⟩, 8, "wood"⟩]

/-- The manager `twoLoaded` with the two materials of `library` defined. -/
def withMaterials : SceneManager ℚ :=
  { twoLoaded with m_objectMaterials := library }

/-- A caller's output material before a lookup. -/
def blank : OBJECT_MATERIAL ℚ :=
  ⟨⟨9, 9, 9⟩, ⟨8, 8, 8⟩, 7, "caller"⟩

/-- A second material tagged "metal". -/
def otherMetal : OBJECT_MATERIAL ℚ :=
  ⟨⟨0, 0, 0⟩, ⟨1, 1, 1⟩, 3, "metal"⟩

/-- An OpenGL state with unit 0 active and nothing bound. -/
def gl0 : GLState :=
  ⟨0, fun _ => 0⟩

/-- The names OpenGL generates during a teardown: 101, 102, ... -/
def freshNames : Nat → GLuint :=
  fun i => Fin.ofNat (101 + i)

/-- The calls that register "Wood" and then "Glass". -/
def woodThenGlass : List LoadCall :=
  [⟨some ⟨8, 8, 3⟩, 1, "Wood"⟩, ⟨some ⟨8, 8, 4⟩, 3, "Glass"⟩]

/-- The manager `twoLoaded` after `DestroyGLTextures` with `freshNames`. -/
def afterTeardown : SceneManager ℚ :=
  { twoLoaded with
    m_textureIDs :=
      ((Mathlib.Vector.replicate 16 ⟨"/0", GLuint.ofInt (-1)⟩).set 0 ⟨"Wood", 101⟩).set 1
        ⟨"Glass", 102⟩ }

/-- The manager `withMaterials` constructed with a null shader manager. -/
def nullManager : SceneManager ℚ :=
  { withMaterials with m_pShaderManager := none }

/-- Stand-ins for the `<cmath>` primitives over the rationals. -/
def mathQ : glm.Math ℚ :=
  ⟨fun _ => 0, fun _ => 1, fun _ => 1, 0⟩

/-- A codec that decodes every file to a 3-channel image. -/
def decodeAll : String → Option Image :=
  fun _ => some ⟨64, 64, 3⟩

end Sample

/-! ## The texture registry -/

namespace SceneManager

variable {α : Type}

theorem textureAt_of_lt (s : SceneManager α) (index : Nat) (h : index < 16) :
    s.textureAt index = Except.ok (s.m_textureIDs.get ⟨index, h⟩) := by
  simp [textureAt, h]

theorem FindTextureSlot_loop_done (s : SceneManager α) (tag : String) (fuel index : Nat)
    (textureSlot : Int) : FindTextureSlot.loop s tag fuel index textureSlot true = Except.ok textureSlot := by
  unfold FindTextureSlot.loop
  simp

theorem FindTextureSlot_loop_miss (s : SceneManager α) (tag : String)
    (hcap : s.m_loadedTextures ≤ 16) :
    ∀ (fuel index : Nat) (textureSlot : Int),
      s.m_loadedTextures ≤ index + fuel →
      (∀ j r, index ≤ j → j < s.m_loadedTextures → s.textureAt j = Except.ok r → r.tag ≠ tag) →
      FindTextureSlot.loop s tag fuel index textureSlot false = Except.ok textureSlot := by
  intro fuel
  induction fuel with
  | zero =>
    intro index textureSlot hfuel _
    unfold FindTextureSlot.loop
    have : ¬ index < s.m_loadedTextures := by omega
    simp [this]
  | succ fuel ih =>
    intro index textureSlot hfuel hmiss
    unfold FindTextureSlot.loop
    by_cases hlt : index < s.m_loadedTextures
    · have h16 : index < 16 := by omega
      have hne := hmiss index _ (Nat.le_refl _) hlt (textureAt_of_lt s index h16)
      simp only [hlt, textureAt_of_lt s index h16, hne, and_self, if_true, if_false]
      exact ih (index + 1) textureSlot (by omega)
        (fun j r hj hjl hr => hmiss j r (by omega) hjl hr)
    · simp [hlt]

theorem FindTextureSlot_loop_hit (s : SceneManager α) (tag : String)
    (hcap : s.m_loadedTextures ≤ 16) (i : Nat) (r : TEXTURE_INFO)
    (hi : i < s.m_loadedTextures) (hr : s.textureAt i = Except.ok r) (htag : r.tag = tag) :
    ∀ (fuel index : Nat) (textureSlot : Int),
      index ≤ i → i < index + fuel →
      (∀ j q, index ≤ j → j < i → s.textureAt j = Except.ok q → q.tag ≠ tag) →
      FindTextureSlot.loop s tag fuel index textureSlot false = Except.ok (i : Int) := by
  intro fuel
  induction fuel with
  | zero =>
    intro index textureSlot hle hfuel _
    omega
  | succ fuel ih =>
    intro index textureSlot hle hfuel hmiss
    unfold FindTextureSlot.loop
    have hlt : index < s.m_loadedTextures := by omega
    have h16 : index < 16 := by omega
    by_cases heq : index = i
    · subst heq
      rw [hr]
      simp only [hlt, htag, and_self, if_true]
      exact FindTextureSlot_loop_done s tag fuel index _
    · have hne := hmiss index _ (Nat.le_refl _) (by omega) (textureAt_of_lt s index h16)
      simp only [hlt, textureAt_of_lt s index h16, hne, and_self, if_true, if_false]
      exact ih (index + 1) textureSlot (by omega) (by omega)
        (fun j q hj hjl hq => hmiss j q (by omega) hjl hq)

theorem FindTextureID_loop_done (s : SceneManager α) (tag : String) (fuel index : Nat)
    (textureID : Int) : FindTextureID.loop s tag fuel index textureID true = Except.ok textureID := by
  unfold FindTextureID.loop
  simp

theorem FindTextureID_loop_miss (s : SceneManager α) (tag : String)
    (hcap : s.m_loadedTextures ≤ 16) :
    ∀ (fuel index : Nat) (textureID : Int),
      s.m_loadedTextures ≤ index + fuel →
      (∀ j r, index ≤ j → j < s.m_loadedTextures → s.textureAt j = Except.ok r → r.tag ≠ tag) →
      FindTextureID.loop s tag fuel index textureID false = Except.ok textureID := by
  intro fuel
  induction fuel with
  | zero =>
    intro index textureID hfuel _
    unfold FindTextureID.loop
    have : ¬ index < s.m_loadedTextures := by omega
    simp [this]
  | succ fuel ih =>
    intro index textureID hfuel hmiss
    unfold FindTextureID.loop
    by_cases hlt : index < s.m_loadedTextures
    · have h16 : index < 16 := by omega
      have hne := hmiss index _ (Nat.le_refl _) hlt (textureAt_of_lt s index h16)
      simp only [hlt, textureAt_of_lt s index h16, hne, and_self, if_true, if_false]
      exact ih (index + 1) textureID (by omega)
        (fun j r hj hjl hr => hmiss j r (by omega) hjl hr)
    · simp [hlt]

theorem FindTextureID_loop_hit (s : SceneManager α) (tag : String)
    (hcap : s.m_loadedTextures ≤ 16) (i : Nat) (r : TEXTURE_INFO)
    (hi : i < s.m_loadedTextures) (hr : s.textureAt i = Except.ok r) (htag : r.tag = tag) :
    ∀ (fuel index : Nat) (textureID : Int),
      index ≤ i → i < index + fuel →
      (∀ j q, index ≤ j → j < i → s.textureAt j = Except.ok q → q.tag ≠ tag) →
      FindTextureID.loop s tag fuel index textureID false = Except.ok r.ID.toInt := by
  intro fuel
  induction fuel with
  | zero =>
    intro index textureID hle hfuel _
    omega
  | succ fuel ih =>
    intro index textureID hle hfuel hmiss
    unfold FindTextureID.loop
    have hlt : index < s.m_loadedTextures := by omega
    have h16 : index < 16 := by omega
    by_cases heq : index = i
    · subst heq
      rw [hr]
      simp only [hlt, htag, and_self, if_true]
      exact FindTextureID_loop_done s tag fuel index _
    · have hne := hmiss index _ (Nat.le_refl _) (by omega) (textureAt_of_lt s index h16)
      simp only [hlt, textureAt_of_lt s index h16, hne, and_self, if_true, if_false]
      exact ih (index + 1) textureID (by omega) (by omega)
        (fun j q hj hjl hq => hmiss j q (by omega) hjl hq)

/-- A record below the load counter that is the first one with the tag decides
`FindTextureSlot`. -/
theorem FindTextureSlot_first (s : SceneManager α) (tag : String)
    (hcap : s.m_loadedTextures ≤ 16) (i : Nat) (r : TEXTURE_INFO)
    (hi : i < s.m_loadedTextures) (hr : s.textureAt i = Except.ok r) (htag : r.tag = tag)
    (hfirst : ∀ j q, j < i → s.textureAt j = Except.ok q → q.tag ≠ tag) :
    s.FindTextureSlot tag = Except.ok (i : Int) :=
  FindTextureSlot_loop_hit s tag hcap i r hi hr htag s.m_loadedTextures 0 (-1)
    (Nat.zero_le _) (by omega) (fun j q _ hj hq => hfirst j q hj hq)

/-- A record below the load counter that is the first one with the tag decides
`FindTextureID`. -/
theorem FindTextureID_first (s : SceneManager α) (tag : String)
    (hcap : s.m_loadedTextures ≤ 16) (i : Nat) (r : TEXTURE_INFO)
    (hi : i < s.m_loadedTextures) (hr : s.textureAt i = Except.ok r) (htag : r.tag = tag)
    (hfirst : ∀ j q, j < i → s.textureAt j = Except.ok q → q.tag ≠ tag) :
    s.FindTextureID tag = Except.ok r.ID.toInt :=
  FindTextureID_loop_hit s tag hcap i r hi hr htag s.m_loadedTextures 0 (-1)
    (Nat.zero_le _) (by omega) (fun j q _ hj hq => hfirst j q hj hq)

/-- With no record of that tag below the load counter, `FindTextureSlot`
answers `-1`. -/
theorem FindTextureSlot_none (s : SceneManager α) (tag : String)
    (hcap : s.m_loadedTextures ≤ 16)
    (hmiss : ∀ j q, j < s.m_loadedTextures → s.textureAt j = Except.ok q → q.tag ≠ tag) :
    s.FindTextureSlot tag = Except.ok (-1) :=
  FindTextureSlot_loop_miss s tag hcap s.m_loadedTextures 0 (-1) (by omega)
    (fun j q _ hj hq => hmiss j q hj hq)

/-- With no record of that tag below the load counter, `FindTextureID`
answers `-1`. -/
theorem FindTextureID_none (s : SceneManager α) (tag : String)
    (hcap : s.m_loadedTextures ≤ 16)
    (hmiss : ∀ j q, j < s.m_loadedTextures → s.textureAt j = Except.ok q → q.tag ≠ tag) :
    s.FindTextureID tag = Except.ok (-1) :=
  FindTextureID_loop_miss s tag hcap s.m_loadedTextures 0 (-1) (by omega)
    (fun j q _ hj hq => hmiss j q hj hq)

/-- Among the records below a bound, either none has the tag or there is a
first one that has it. -/
theorem first_record_with_tag (s : SceneManager α) (tag : String) :
    ∀ n : Nat, n ≤ 16 →
      (∀ j q, j < n → s.textureAt j = Except.ok q → q.tag ≠ tag) ∨
      ∃ i r, i < n ∧ s.textureAt i = Except.ok r ∧ r.tag = tag ∧
        ∀ j q, j < i → s.textureAt j = Except.ok q → q.tag ≠ tag := by
  intro n
  induction n with
  | zero => intro _; left; intro j q hj; omega
  | succ n ih =>
    intro hn
    rcases ih (by omega) with hnone | ⟨i, r, hi, hr, htag, hfirst⟩
    · by_cases h : (s.m_textureIDs.get ⟨n, by omega⟩).tag = tag
      · right
        exact ⟨n, _, by omega, textureAt_of_lt s n (by omega), h, hnone⟩
      · left
        intro j q hj hq
        by_cases hjn : j = n
        · subst hjn
          rw [textureAt_of_lt s j (by omega)] at hq
          cases hq
          exact h
        · exact hnone j q (by omega) hq
    · right
      exact ⟨i, r, by omega, hr, htag, hfirst⟩

/-- The effect of a `CreateGLTexture` call on a table with a free slot when the
image decodes with 3 or 4 channels. -/
theorem CreateGLTexture_ok (s : SceneManager α) (img : Image) (textureID : GLuint)
    (tag : String) (hch : img.colorChannels = 3 ∨ img.colorChannels = 4)
    (hfree : s.m_loadedTextures < 16) :
    s.CreateGLTexture (some img) textureID tag = Except.ok (true,
      { s with
        m_textureIDs := s.m_textureIDs.set ⟨s.m_loadedTextures, hfree⟩ ⟨tag, textureID⟩
        m_loadedTextures := s.m_loadedTextures + 1 }) := by
  simp [CreateGLTexture, hch, hfree]

/-- Reading the table after a store: the stored record at the written index,
the old record elsewhere. -/
theorem textureAt_set (s : SceneManager α) (n : Nat) (hn : n < 16) (r : TEXTURE_INFO)
    (k : Nat) (j : Nat) :
    ({ s with m_textureIDs := s.m_textureIDs.set ⟨n, hn⟩ r, m_loadedTextures := k } :
        SceneManager α).textureAt j =
      if j = n then Except.ok r else s.textureAt j := by
  unfold textureAt
  by_cases hj : j < 16
  · by_cases hjn : j = n
    · subst hjn
      simp [hj, Mathlib.Vector.get_set_same]
    · have hne : (⟨n, hn⟩ : Fin 16) ≠ ⟨j, hj⟩ := by
        intro h
        exact hjn (Fin.mk.inj h).symm
      simp [hj, hjn, Mathlib.Vector.get_set_of_ne hne]
  · have hjn : j ≠ n := by omega
    simp [hj, hjn]

theorem decodes_iff (c : LoadCall) :
    c.decodes = true ↔ ∃ img, c.image = some img ∧ (img.colorChannels = 3 ∨ img.colorChannels = 4) := by
  unfold LoadCall.decodes
  cases h : c.image with
  | none => simp
  | some img => simp

/-- A call that fails to decode, or decodes to an unsupported channel count,
returns `false` and hands back the manager it was given. -/
theorem CreateGLTexture_not_decoded (s : SceneManager α) (c : LoadCall)
    (h : c.decodes = false) :
    s.CreateGLTexture c.image c.textureID c.tag = Except.ok (false, s) := by
  unfold LoadCall.decodes at h
  unfold CreateGLTexture
  cases hi : c.image with
  | none => rfl
  | some img =>
    rw [hi] at h
    have hn : ¬ (img.colorChannels = 3 ∨ img.colorChannels = 4) := by simpa using h
    simp [hn]

/-- What a run of loads does to the registry when the decodable calls fit into
the free slots: the counter grows by their number, they fill the next slots in
order, and nothing else changes. -/
theorem loadSequence_spec (calls : List LoadCall) :
    ∀ s : SceneManager α,
      s.m_loadedTextures + (LoadCall.successes calls).length ≤ 16 →
      ∃ t : SceneManager α, s.loadSequence calls = Except.ok t ∧
        t.m_loadedTextures = s.m_loadedTextures + (LoadCall.successes calls).length ∧
        t.m_pShaderManager = s.m_pShaderManager ∧
        t.m_objectMaterials = s.m_objectMaterials ∧
        (∀ j, j < s.m_loadedTextures → t.textureAt j = s.textureAt j) ∧
        (∀ j, s.m_loadedTextures + (LoadCall.successes calls).length ≤ j →
          t.textureAt j = s.textureAt j) ∧
        (∀ k c, (LoadCall.successes calls)[k]? = some c →
          t.textureAt (s.m_loadedTextures + k) = Except.ok ⟨c.tag, c.textureID⟩) := by
  induction calls with
  | nil =>
    intro s _
    refine ⟨s, rfl, by simp [LoadCall.successes], rfl, rfl, fun _ _ => rfl, fun _ _ => rfl, ?_⟩
    intro k c hk
    simp [LoadCall.successes] at hk
  | cons c cs ih =>
    intro s hfit
    cases hd : c.decodes with
    | false =>
      have hs : LoadCall.successes (c :: cs) = LoadCall.successes cs := by
        simp [LoadCall.successes, List.filter_cons, hd]
      rw [hs] at hfit ⊢
      obtain ⟨t, hrun, hrest⟩ := ih s hfit
      refine ⟨t, ?_, hrest⟩
      simp only [loadSequence, CreateGLTexture_not_decoded s c hd]
      exact hrun
    | true =>
      have hs : LoadCall.successes (c :: cs) = c :: LoadCall.successes cs := by
        simp [LoadCall.successes, List.filter_cons, hd]
      rw [hs] at hfit ⊢
      simp only [List.length_cons] at hfit ⊢
      obtain ⟨img, himg, hch⟩ := (decodes_iff c).mp hd
      have hfree : s.m_loadedTextures < 16 := by omega
      obtain ⟨t, hrun, hcount, hsm, hmat, hlow, hhigh, hnew⟩ :=
        ih { s with
              m_textureIDs := s.m_textureIDs.set ⟨s.m_loadedTextures, hfree⟩ ⟨c.tag, c.textureID⟩
              m_loadedTextures := s.m_loadedTextures + 1 } (by simp only; omega)
      simp only at hcount hsm hmat hlow hhigh hnew
      refine ⟨t, ?_, by omega, hsm, hmat, ?_, ?_, ?_⟩
      · simp only [loadSequence, himg, CreateGLTexture_ok s img c.textureID c.tag hch hfree]
        exact hrun
      · intro j hj
        rw [hlow j (by omega), textureAt_set]
        simp [Nat.ne_of_lt hj]
      · intro j hj
        rw [hhigh j (by omega), textureAt_set]
        have : j ≠ s.m_loadedTextures := by omega
        simp [this]
      · intro k d hk
        cases k with
        | zero =>
          simp only [List.getElem?_cons_zero, Option.some.injEq] at hk
          subst hk
          rw [Nat.add_zero, hlow _ (by omega), textureAt_set]
          simp
        | succ k =>
          simp only [List.getElem?_cons_succ] at hk
          have := hnew k d hk
          rw [← this]
          congr 1
          omega

theorem GLuint_ofInt_toInt (u : GLuint) : GLuint.ofInt u.toInt = u := by
  apply Fin.ext
  have hu := u.isLt
  unfold GLuint.ofInt GLuint.toInt
  simp only
  split <;> omega

/-- In a list of calls that holds one with the tag there is a first such. -/
theorem exists_first_call_with_tag (tag : String) (l : List LoadCall)
    (h : ∃ c, c ∈ l ∧ c.tag = tag) :
    ∃ (i : Nat) (c : LoadCall), l[i]? = some c ∧ c.tag = tag ∧
      ∀ (j : Nat) (d : LoadCall), j < i → l[j]? = some d → d.tag ≠ tag := by
  induction l with
  | nil =>
    obtain ⟨c, hc, _⟩ := h
    simp at hc
  | cons a l ih =>
    by_cases ha : a.tag = tag
    · exact ⟨0, a, by simp, ha, fun j d hj _ => absurd hj (Nat.not_lt_zero j)⟩
    · obtain ⟨c, hc, hct⟩ := h
      have hcl : c ∈ l := by
        rcases List.mem_cons.mp hc with rfl | hcl
        · exact absurd hct ha
        · exact hcl
      obtain ⟨i, d, hid, hdt, hfirst⟩ := ih ⟨c, hcl, hct⟩
      refine ⟨i + 1, d, by simpa using hid, hdt, ?_⟩
      intro j e hj hje
      cases j with
      | zero =>
        simp only [List.getElem?_cons_zero, Option.some.injEq] at hje
        subst hje
        exact ha
      | succ j =>
        simp only [List.getElem?_cons_succ] at hje
        exact hfirst j e (by omega) hje

/-- After a run of loads on a fresh manager, the lookups answer with the slot
and the handle of the first decodable call that carried the tag. -/
theorem find_after_loads (p : Option (ShaderManager α)) (calls : List LoadCall) (tag : String)
    (hcount : (LoadCall.successes calls).length ≤ 16) (i : Nat) (c : LoadCall)
    (hic : (LoadCall.successes calls)[i]? = some c) (hct : c.tag = tag)
    (hfirst : ∀ (j : Nat) (d : LoadCall), j < i → (LoadCall.successes calls)[j]? = some d → d.tag ≠ tag) :
    ∃ s : SceneManager α, (new p).loadSequence calls = Except.ok s ∧
      s.m_loadedTextures = (LoadCall.successes calls).length ∧
      s.textureAt i = Except.ok ⟨tag, c.textureID⟩ ∧
      s.FindTextureSlot tag = Except.ok (i : Int) ∧
      s.FindTextureID tag = Except.ok c.textureID.toInt := by
  have h0 : (new p : SceneManager α).m_loadedTextures = 0 := rfl
  obtain ⟨s, hrun, hn, -, -, -, -, hnew⟩ :=
    loadSequence_spec calls (new p : SceneManager α) (by rw [h0]; omega)
  rw [h0, Nat.zero_add] at hn
  simp only [h0, Nat.zero_add] at hnew
  have hilt : i < (LoadCall.successes calls).length := by
    rcases Nat.lt_or_ge i (LoadCall.successes calls).length with h | h
    · exact h
    · rw [List.getElem?_eq_none h] at hic
      cases hic
  have hrec : s.textureAt i = Except.ok ⟨tag, c.textureID⟩ := by
    rw [hnew i c hic, hct]
  have hbefore : ∀ j q, j < i → s.textureAt j = Except.ok q → q.tag ≠ tag := by
    intro j q hj hq
    have hjlt : j < (LoadCall.successes calls).length := by omega
    have hjd : (LoadCall.successes calls)[j]? = some ((LoadCall.successes calls)[j]) :=
      List.getElem?_eq_getElem hjlt
    rw [hnew j _ hjd] at hq
    cases hq
    exact hfirst j _ hj hjd
  refine ⟨s, hrun, hn, hrec, ?_, ?_⟩
  · exact FindTextureSlot_first s tag (by omega) i _ (by omega) hrec rfl hbefore
  · exact FindTextureID_first s tag (by omega) i _ (by omega) hrec rfl hbefore

/-- C1: in a registry built on a fresh manager by a run of loads of which at
most 16 succeed, for a tag carried by some successful load, FindTextureSlot
returns the index of the first successful load with exactly that tag and
FindTextureID returns the handle of that load (as an int whose 32-bit pattern
is the stored GLuint); further loads, duplicates of the tag included, change
neither result. -/
theorem C1_first_registration_wins (p : Option (ShaderManager α))
    (calls more : List LoadCall) (tag : String)
    (hcount : (LoadCall.successes (calls ++ more)).length ≤ 16)
    (hreg : ∃ c, c ∈ LoadCall.successes calls ∧ c.tag = tag) :
    ∃ (s t : SceneManager α) (i : Nat) (c : LoadCall),
      (new p).loadSequence calls = Except.ok s ∧
      (LoadCall.successes calls)[i]? = some c ∧ c.tag = tag ∧
      (∀ (j : Nat) (d : LoadCall), j < i → (LoadCall.successes calls)[j]? = some d → d.tag ≠ tag) ∧
      s.textureAt i = Except.ok ⟨tag, c.textureID⟩ ∧
      s.FindTextureSlot tag = Except.ok (i : Int) ∧
      s.FindTextureID tag = Except.ok c.textureID.toInt ∧
      GLuint.ofInt c.textureID.toInt = c.textureID ∧
      (new p).loadSequence (calls ++ more) = Except.ok t ∧
      t.FindTextureSlot tag = Except.ok (i : Int) ∧
      t.FindTextureID tag = Except.ok c.textureID.toInt := by
  have happ : LoadCall.successes (calls ++ more) =
      LoadCall.successes calls ++ LoadCall.successes more := by
    simp [LoadCall.successes]
  rw [happ, List.length_append] at hcount
  obtain ⟨i, c, hic, hct, hfirst⟩ := exists_first_call_with_tag tag _ hreg
  have hilt : i < (LoadCall.successes calls).length := by
    rcases Nat.lt_or_ge i (LoadCall.successes calls).length with h | h
    · exact h
    · rw [List.getElem?_eq_none h] at hic
      cases hic
  obtain ⟨s, hrun, -, hrec, hslot, hid⟩ :=
    find_after_loads p calls tag (by omega) i c hic hct hfirst
  have hic2 : (LoadCall.successes (calls ++ more))[i]? = some c := by
    rw [happ, List.getElem?_append_left hilt]
    exact hic
  have hfirst2 : ∀ (j : Nat) (d : LoadCall), j < i → (LoadCall.successes (calls ++ more))[j]? = some d →
      d.tag ≠ tag := by
    intro j d hj hjd
    rw [happ, List.getElem?_append_left (by omega)] at hjd
    exact hfirst j d hj hjd
  obtain ⟨t, hrun2, -, -, hslot2, hid2⟩ :=
    find_after_loads p (calls ++ more) tag (by rw [happ, List.length_append]; omega)
      i c hic2 hct hfirst2
  exact ⟨s, t, i, c, hrun, hic, hct, hfirst, hrec, hslot, hid, GLuint_ofInt_toInt _,
    hrun2, hslot2, hid2⟩

theorem C1_first_registration_wins_witness :
    ∃ (s t : SceneManager ℚ) (i : Nat) (c : LoadCall),
      (new none).loadSequence Sample.woodGlass = Except.ok s ∧
      (LoadCall.successes Sample.woodGlass)[i]? = some c ∧ c.tag = "Glass" ∧
      (∀ (j : Nat) (d : LoadCall), j < i → (LoadCall.successes Sample.woodGlass)[j]? = some d → d.tag ≠ "Glass") ∧
      s.textureAt i = Except.ok ⟨"Glass", c.textureID⟩ ∧
      s.FindTextureSlot "Glass" = Except.ok (i : Int) ∧
      s.FindTextureID "Glass" = Except.ok c.textureID.toInt ∧
      GLuint.ofInt c.textureID.toInt = c.textureID ∧
      (new none).loadSequence (Sample.woodGlass ++ [⟨some ⟨2, 2, 3⟩, 4, "Glass"⟩]) = Except.ok t ∧
      t.FindTextureSlot "Glass" = Except.ok (i : Int) ∧
      t.FindTextureID "Glass" = Except.ok c.textureID.toInt :=
  C1_first_registration_wins none Sample.woodGlass [⟨some ⟨2, 2, 3⟩, 4, "Glass"⟩] "Glass"
    (by decide) ⟨⟨some ⟨8, 8, 4⟩, 3, "Glass"⟩, by decide, rfl⟩

/-- A decodable call on a manager whose counter stands at 16 reaches the store
`m_textureIDs[16]`, which lies outside the table. -/
theorem CreateGLTexture_full (s : SceneManager α) (img : Image) (textureID : GLuint)
    (tag : String) (hch : img.colorChannels = 3 ∨ img.colorChannels = 4)
    (hfull : 16 ≤ s.m_loadedTextures) :
    s.CreateGLTexture (some img) textureID tag = Except.error Fault.outOfBounds := by
  have h : ¬ s.m_loadedTextures < 16 := by omega
  simp [CreateGLTexture, hch, h]

/-- C2: after sixteen successful loads on a fresh manager, a seventeenth call
whose image decodes with 3 channels does not return failure with the registry
intact: it runs into the store to `m_textureIDs[16]`, outside the 16-entry
table. -/
theorem C2_seventeenth_load_overruns_table :
    ∃ s : SceneManager ℚ,
      (new none).loadSequence Sample.sixteen = Except.ok s ∧
      s.m_loadedTextures = 16 ∧
      s.CreateGLTexture Sample.seventeenth.image Sample.seventeenth.textureID
        Sample.seventeenth.tag = Except.error Fault.outOfBounds ∧
      s.CreateGLTexture Sample.seventeenth.image Sample.seventeenth.textureID
        Sample.seventeenth.tag ≠ Except.ok (false, s) := by
  obtain ⟨s, hrun, hn, -⟩ :=
    loadSequence_spec Sample.sixteen (new none : SceneManager ℚ) (by decide)
  have h16 : s.m_loadedTextures = 16 := by
    rw [hn]
    decide
  have hfault := CreateGLTexture_full s ⟨64, 64, 3⟩ 17 "extra17" (by decide) (by omega)
  refine ⟨s, hrun, h16, hfault, ?_⟩
  intro h
  have h2 : s.CreateGLTexture (some ⟨64, 64, 3⟩) 17 "extra17" = Except.ok (false, s) := h
  rw [hfault] at h2
  cases h2

/-- C3: CreateGLTexture returns false exactly when the codec yields no image or
the image has a channel count other than 3 and 4, and then the manager handed
back is the one passed in: load counter, every table entry and hence every
FindTextureSlot and FindTextureID result are as before. -/
theorem C3_failed_load_leaves_registry (s t : SceneManager α) (image : Option Image)
    (textureID : GLuint) (tag : String)
    (hfalse : s.CreateGLTexture image textureID tag = Except.ok (false, t)) :
    (image = none ∨
      ∃ img, image = some img ∧ ¬ (img.colorChannels = 3 ∨ img.colorChannels = 4)) ∧
    t = s ∧
    t.m_loadedTextures = s.m_loadedTextures ∧
    (∀ j : Nat, t.textureAt j = s.textureAt j) ∧
    (∀ q : String, t.FindTextureSlot q = s.FindTextureSlot q ∧
      t.FindTextureID q = s.FindTextureID q) ∧
    s.CreateGLTexture none textureID tag = Except.ok (false, s) ∧
    (∀ img : Image, ¬ (img.colorChannels = 3 ∨ img.colorChannels = 4) →
      s.CreateGLTexture (some img) textureID tag = Except.ok (false, s)) := by
  have hnone : s.CreateGLTexture none textureID tag = Except.ok (false, s) := rfl
  have hbad : ∀ img : Image, ¬ (img.colorChannels = 3 ∨ img.colorChannels = 4) →
      s.CreateGLTexture (some img) textureID tag = Except.ok (false, s) := by
    intro img hn
    simp [CreateGLTexture, hn]
  have key : (image = none ∨
      ∃ img, image = some img ∧ ¬ (img.colorChannels = 3 ∨ img.colorChannels = 4)) ∧
      t = s := by
    cases image with
    | none =>
      rw [hnone] at hfalse
      cases hfalse
      exact ⟨Or.inl rfl, rfl⟩
    | some img =>
      by_cases hch : img.colorChannels = 3 ∨ img.colorChannels = 4
      · by_cases hfree : s.m_loadedTextures < 16
        · rw [CreateGLTexture_ok s img textureID tag hch hfree] at hfalse
          cases hfalse
        · rw [CreateGLTexture_full s img textureID tag hch (by omega)] at hfalse
          cases hfalse
      · rw [hbad img hch] at hfalse
        cases hfalse
        exact ⟨Or.inr ⟨img, rfl, hch⟩, rfl⟩
  obtain ⟨hcause, hts⟩ := key
  subst hts
  exact ⟨hcause, rfl, rfl, fun _ => rfl, fun _ => ⟨rfl, rfl⟩, hnone, hbad⟩

theorem C3_failed_load_leaves_registry_witness :
    Sample.twoLoaded.CreateGLTexture (some ⟨8, 8, 1⟩) 5 "grey" =
        Except.ok (false, Sample.twoLoaded) ∧
      ((some (⟨8, 8, 1⟩ : Image) = none ∨
        ∃ img, some (⟨8, 8, 1⟩ : Image) = some img ∧
          ¬ (img.colorChannels = 3 ∨ img.colorChannels = 4)) ∧
      Sample.twoLoaded = Sample.twoLoaded ∧
      Sample.twoLoaded.m_loadedTextures = Sample.twoLoaded.m_loadedTextures) :=
  ⟨by decide,
    (C3_failed_load_leaves_registry Sample.twoLoaded Sample.twoLoaded (some ⟨8, 8, 1⟩) 5 "grey"
      (by decide)).1,
    rfl, rfl⟩

/-- C4: on a registry with n < 16 records a decodable load returns true, puts
the new tag and handle at index n, raises the counter to n+1 and leaves every
other table entry as it was; FindTextureSlot of a tag no earlier record carries
then returns n.  From a fresh manager the k-th decodable load of a run
(counting from 0) therefore occupies slot k. -/
theorem C4_load_appends_at_next_slot (s : SceneManager α) (img : Image) (textureID : GLuint)
    (tag : String) (hch : img.colorChannels = 3 ∨ img.colorChannels = 4)
    (hfree : s.m_loadedTextures < 16) :
    (∃ t : SceneManager α,
      s.CreateGLTexture (some img) textureID tag = Except.ok (true, t) ∧
      t.textureAt s.m_loadedTextures = Except.ok ⟨tag, textureID⟩ ∧
      t.m_loadedTextures = s.m_loadedTextures + 1 ∧
      (∀ j : Nat, j ≠ s.m_loadedTextures → t.textureAt j = s.textureAt j) ∧
      t.m_pShaderManager = s.m_pShaderManager ∧
      t.m_objectMaterials = s.m_objectMaterials ∧
      ((∀ (j : Nat) (q : TEXTURE_INFO), j < s.m_loadedTextures →
          s.textureAt j = Except.ok q → q.tag ≠ tag) →
        t.FindTextureSlot tag = Except.ok (s.m_loadedTextures : Int))) ∧
    (∀ (p : Option (ShaderManager α)) (calls : List LoadCall),
      (LoadCall.successes calls).length ≤ 16 →
      ∃ u : SceneManager α, (new p).loadSequence calls = Except.ok u ∧
        u.m_loadedTextures = (LoadCall.successes calls).length ∧
        ∀ (k : Nat) (c : LoadCall), (LoadCall.successes calls)[k]? = some c →
          u.textureAt k = Except.ok ⟨c.tag, c.textureID⟩) := by
  constructor
  · refine ⟨_, CreateGLTexture_ok s img textureID tag hch hfree, ?_, rfl, ?_, rfl, rfl, ?_⟩
    · rw [textureAt_set]
      simp
    · intro j hj
      rw [textureAt_set]
      simp [hj]
    · intro hnew
      refine FindTextureSlot_first _ tag (by simp only; omega) s.m_loadedTextures ⟨tag, textureID⟩
        (by simp only; omega) (by rw [textureAt_set]; simp) rfl ?_
      intro j q hj hq
      rw [textureAt_set] at hq
      simp only [Nat.ne_of_lt hj, if_false] at hq
      exact hnew j q hj hq
  · intro p calls hcount
    have h0 : (new p : SceneManager α).m_loadedTextures = 0 := rfl
    obtain ⟨u, hrun, hn, -, -, -, -, hnew⟩ :=
      loadSequence_spec calls (new p : SceneManager α) (by rw [h0]; omega)
    rw [h0, Nat.zero_add] at hn
    simp only [h0, Nat.zero_add] at hnew
    exact ⟨u, hrun, hn, hnew⟩

theorem C4_load_appends_at_next_slot_witness :
    ((⟨64, 64, 4⟩ : Image).colorChannels = 3 ∨ (⟨64, 64, 4⟩ : Image).colorChannels = 4) ∧
    Sample.twoLoaded.m_loadedTextures < 16 ∧
    ∃ t : SceneManager ℚ,
      Sample.twoLoaded.CreateGLTexture (some ⟨64, 64, 4⟩) 9 "Stem" = Except.ok (true, t) ∧
      t.textureAt Sample.twoLoaded.m_loadedTextures = Except.ok ⟨"Stem", 9⟩ ∧
      t.m_loadedTextures = Sample.twoLoaded.m_loadedTextures + 1 ∧
      (∀ j : Nat, j ≠ Sample.twoLoaded.m_loadedTextures →
        t.textureAt j = Sample.twoLoaded.textureAt j) ∧
      t.m_pShaderManager = Sample.twoLoaded.m_pShaderManager ∧
      t.m_objectMaterials = Sample.twoLoaded.m_objectMaterials ∧
      ((∀ (j : Nat) (q : TEXTURE_INFO), j < Sample.twoLoaded.m_loadedTextures →
          Sample.twoLoaded.textureAt j = Except.ok q → q.tag ≠ "Stem") →
        t.FindTextureSlot "Stem" = Except.ok (Sample.twoLoaded.m_loadedTextures : Int)) :=
  ⟨by decide, by decide,
    (C4_load_appends_at_next_slot Sample.twoLoaded ⟨64, 64, 4⟩ 9 "Stem" (by decide)
      (by decide)).1⟩

/-- C5: with the load counter within the table, FindTextureSlot returns a
value; that value is -1 exactly when no record below the load counter has the
tag, and any other value r satisfies 0 ≤ r < m_loadedTextures with record r
carrying the tag.  A fresh manager answers -1 for every tag, "/0" included. -/
theorem C5_not_found_is_distinct (s : SceneManager α) (tag : String)
    (hcap : s.m_loadedTextures ≤ 16) :
    (∃ r : Int, s.FindTextureSlot tag = Except.ok r ∧
      (r = -1 ↔ ∀ (j : Nat) (q : TEXTURE_INFO), j < s.m_loadedTextures →
        s.textureAt j = Except.ok q → q.tag ≠ tag) ∧
      (r ≠ -1 → 0 ≤ r ∧ r < (s.m_loadedTextures : Int) ∧
        ∃ q : TEXTURE_INFO, s.textureAt r.toNat = Except.ok q ∧ q.tag = tag)) ∧
    (∀ p : Option (ShaderManager α), (new p).FindTextureSlot tag = Except.ok (-1)) ∧
    (∀ p : Option (ShaderManager α), (new p).FindTextureSlot "/0" = Except.ok (-1)) := by
  refine ⟨?_, fun p => ?_, fun p => ?_⟩
  · rcases first_record_with_tag s tag s.m_loadedTextures hcap with hnone | ⟨i, r, hi, hr, htag, hfirst⟩
    · refine ⟨-1, FindTextureSlot_none s tag hcap hnone, ?_, ?_⟩
      · exact ⟨fun _ => hnone, fun _ => rfl⟩
      · intro h
        exact absurd rfl h
    · refine ⟨(i : Int), FindTextureSlot_first s tag hcap i r hi hr htag hfirst, ?_, ?_⟩
      · constructor
        · intro h
          omega
        · intro hmiss
          exact absurd htag (hmiss i r hi hr)
      · intro _
        refine ⟨by omega, by omega, r, ?_, htag⟩
        simpa using hr
  · exact FindTextureSlot_none (new p) tag (Nat.zero_le 16)
      (fun j q hj => absurd hj (Nat.not_lt_zero j))
  · exact FindTextureSlot_none (new p) "/0" (Nat.zero_le 16)
      (fun j q hj => absurd hj (Nat.not_lt_zero j))

theorem C5_not_found_is_distinct_witness :
    Sample.twoLoaded.m_loadedTextures ≤ 16 ∧
    Sample.twoLoaded.FindTextureSlot "Glass" = Except.ok 1 ∧
    Sample.twoLoaded.FindTextureSlot "glass" = Except.ok (-1) ∧
    ∃ r : Int, Sample.twoLoaded.FindTextureSlot "glass" = Except.ok r ∧
      (r = -1 ↔ ∀ (j : Nat) (q : TEXTURE_INFO), j < Sample.twoLoaded.m_loadedTextures →
        Sample.twoLoaded.textureAt j = Except.ok q → q.tag ≠ "glass") ∧
      (r ≠ -1 → 0 ≤ r ∧ r < (Sample.twoLoaded.m_loadedTextures : Int) ∧
        ∃ q : TEXTURE_INFO, Sample.twoLoaded.textureAt r.toNat = Except.ok q ∧ q.tag = "glass") :=
  ⟨by decide, by decide, by decide,
    (C5_not_found_is_distinct Sample.twoLoaded "glass" (by decide)).1⟩

/-! ## The material library -/

theorem FindMaterial_loop_done (s : SceneManager α) (tag : String) (fuel index : Nat)
    (material : OBJECT_MATERIAL α) :
    FindMaterial.loop s tag fuel index true material = Except.ok material := by
  unfold FindMaterial.loop
  simp

theorem FindMaterial_loop_miss (s : SceneManager α) (tag : String) :
    ∀ (fuel index : Nat) (material : OBJECT_MATERIAL α),
      s.m_objectMaterials.length ≤ index + fuel →
      (∀ (j : Nat) (r : OBJECT_MATERIAL α), index ≤ j → s.m_objectMaterials[j]? = some r →
        r.tag ≠ tag) →
      FindMaterial.loop s tag fuel index false material = Except.ok material := by
  intro fuel
  induction fuel with
  | zero =>
    intro index material hfuel _
    unfold FindMaterial.loop
    have : ¬ index < s.m_objectMaterials.length := by omega
    simp [this]
  | succ fuel ih =>
    intro index material hfuel hmiss
    unfold FindMaterial.loop
    by_cases hlt : index < s.m_objectMaterials.length
    · have hget := List.getElem?_eq_getElem hlt
      have hne := hmiss index _ (Nat.le_refl _) hget
      simp only [hlt, hget, hne, and_self, if_true, if_false]
      exact ih (index + 1) material (by omega) (fun j r hj hr => hmiss j r (by omega) hr)
    · simp [hlt]

theorem FindMaterial_loop_hit (s : SceneManager α) (tag : String) (i : Nat)
    (r : OBJECT_MATERIAL α) (hr : s.m_objectMaterials[i]? = some r) (htag : r.tag = tag) :
    ∀ (fuel index : Nat) (material : OBJECT_MATERIAL α),
      index ≤ i → i < index + fuel →
      (∀ (j : Nat) (q : OBJECT_MATERIAL α), index ≤ j → j < i →
        s.m_objectMaterials[j]? = some q → q.tag ≠ tag) →
      FindMaterial.loop s tag fuel index false material =
        Except.ok { material with
          diffuseColor := r.diffuseColor
          specularColor := r.specularColor
          shininess := r.shininess } := by
  have hilt : i < s.m_objectMaterials.length := by
    rcases Nat.lt_or_ge i s.m_objectMaterials.length with h | h
    · exact h
    · rw [List.getElem?_eq_none h] at hr
      cases hr
  intro fuel
  induction fuel with
  | zero =>
    intro index material hle hfuel _
    omega
  | succ fuel ih =>
    intro index material hle hfuel hmiss
    unfold FindMaterial.loop
    have hlt : index < s.m_objectMaterials.length := by omega
    by_cases heq : index = i
    · subst heq
      simp only [hlt, hr, htag, and_self, if_true]
      exact FindMaterial_loop_done s tag fuel index _
    · have hget := List.getElem?_eq_getElem hlt
      have hne := hmiss index _ (Nat.le_refl _) (by omega) hget
      simp only [hlt, hget, hne, and_self, if_true, if_false]
      exact ih (index + 1) material (by omega) (by omega)
        (fun j q hj hjl hq => hmiss j q (by omega) hjl hq)

/-- On a non-empty library without a record of that tag, `FindMaterial` reports
`true` and hands the material back as it got it. -/
theorem FindMaterial_miss (s : SceneManager α) (tag : String) (material : OBJECT_MATERIAL α)
    (hne : s.m_objectMaterials ≠ [])
    (hmiss : ∀ r : OBJECT_MATERIAL α, r ∈ s.m_objectMaterials → r.tag ≠ tag) :
    s.FindMaterial tag material = Except.ok (true, material) := by
  have hlen : s.m_objectMaterials.length ≠ 0 := by
    intro h
    exact hne (List.length_eq_zero.mp h)
  unfold FindMaterial
  rw [if_neg hlen, FindMaterial_loop_miss s tag _ 0 material (by omega)
    (fun j r _ hr => hmiss r (List.getElem?_mem hr))]

/-- The first record with the tag is the one `FindMaterial` copies from. -/
theorem FindMaterial_first (s : SceneManager α) (tag : String) (material : OBJECT_MATERIAL α)
    (i : Nat) (r : OBJECT_MATERIAL α) (hr : s.m_objectMaterials[i]? = some r)
    (htag : r.tag = tag)
    (hfirst : ∀ (j : Nat) (q : OBJECT_MATERIAL α), j < i →
      s.m_objectMaterials[j]? = some q → q.tag ≠ tag) :
    s.FindMaterial tag material = Except.ok (true,
      { material with
        diffuseColor := r.diffuseColor
        specularColor := r.specularColor
        shininess := r.shininess }) := by
  have hilt : i < s.m_objectMaterials.length := by
    rcases Nat.lt_or_ge i s.m_objectMaterials.length with h | h
    · exact h
    · rw [List.getElem?_eq_none h] at hr
      cases hr
  have hlen : s.m_objectMaterials.length ≠ 0 := by omega
  unfold FindMaterial
  rw [if_neg hlen, FindMaterial_loop_hit s tag i r hr htag _ 0 material (Nat.zero_le _)
    (by omega) (fun j q _ hj hq => hfirst j q hj hq)]

/-- In a list of materials that holds one with the tag there is a first such. -/
theorem exists_first_material_with_tag (tag : String) (l : List (OBJECT_MATERIAL α))
    (h : ∃ r, r ∈ l ∧ r.tag = tag) :
    ∃ (i : Nat) (r : OBJECT_MATERIAL α), l[i]? = some r ∧ r.tag = tag ∧
      ∀ (j : Nat) (q : OBJECT_MATERIAL α), j < i → l[j]? = some q → q.tag ≠ tag := by
  induction l with
  | nil =>
    obtain ⟨r, hr, _⟩ := h
    simp at hr
  | cons a l ih =>
    by_cases ha : a.tag = tag
    · exact ⟨0, a, by simp, ha, fun j q hj _ => absurd hj (Nat.not_lt_zero j)⟩
    · obtain ⟨r, hr, hrt⟩ := h
      have hrl : r ∈ l := by
        rcases List.mem_cons.mp hr with rfl | hrl
        · exact absurd hrt ha
        · exact hrl
      obtain ⟨i, d, hid, hdt, hfirst⟩ := ih ⟨r, hrl, hrt⟩
      refine ⟨i + 1, d, by simpa using hid, hdt, ?_⟩
      intro j e hj hje
      cases j with
      | zero =>
        simp only [List.getElem?_cons_zero, Option.some.injEq] at hje
        subst hje
        exact ha
      | succ j =>
        simp only [List.getElem?_cons_succ] at hje
        exact hfirst j e (by omega) hje

/-- C6: FindMaterial returns false on an empty library, for every tag; on a
non-empty library in which no record has the queried tag it returns true and
the caller's material comes back with every field as it went in. -/
theorem C6_lookup_miss_reports_found (s : SceneManager α) (tag : String)
    (material : OBJECT_MATERIAL α) :
    (s.m_objectMaterials = [] → s.FindMaterial tag material = Except.ok (false, material)) ∧
    (s.m_objectMaterials ≠ [] →
      (∀ r : OBJECT_MATERIAL α, r ∈ s.m_objectMaterials → r.tag ≠ tag) →
      s.FindMaterial tag material = Except.ok (true, material)) := by
  constructor
  · intro hempty
    unfold FindMaterial
    simp [hempty]
  · intro hne hmiss
    exact FindMaterial_miss s tag material hne hmiss

theorem C6_lookup_miss_reports_found_witness :
    (Sample.twoLoaded.m_objectMaterials = [] ∧
      Sample.twoLoaded.FindMaterial "glass" Sample.blank = Except.ok (false, Sample.blank)) ∧
    (Sample.withMaterials.m_objectMaterials ≠ [] ∧
      (∀ r : OBJECT_MATERIAL ℚ, r ∈ Sample.withMaterials.m_objectMaterials → r.tag ≠ "glass") ∧
      Sample.withMaterials.FindMaterial "glass" Sample.blank = Except.ok (true, Sample.blank)) :=
  ⟨⟨rfl, (C6_lookup_miss_reports_found Sample.twoLoaded "glass" Sample.blank).1 rfl⟩,
    ⟨by decide, by decide,
      (C6_lookup_miss_reports_found Sample.withMaterials "glass" Sample.blank).2
        (by decide) (by decide)⟩⟩

/-- C7: when some record of the material library carries the tag, FindMaterial
returns true with the diffuse colour, specular colour and shininess of the
first such record (in definition order) copied into the caller's material; and
appending a further record with that tag leaves the result of FindMaterial the
same for every query tag and every caller material. -/
theorem C7_first_definition_wins (s : SceneManager α) (tag : String)
    (material : OBJECT_MATERIAL α)
    (hreg : ∃ r, r ∈ s.m_objectMaterials ∧ r.tag = tag) :
    (∃ (i : Nat) (r : OBJECT_MATERIAL α),
      s.m_objectMaterials[i]? = some r ∧ r.tag = tag ∧
      (∀ (j : Nat) (q : OBJECT_MATERIAL α), j < i →
        s.m_objectMaterials[j]? = some q → q.tag ≠ tag) ∧
      s.FindMaterial tag material = Except.ok (true,
        ⟨r.diffuseColor, r.specularColor, r.shininess, material.tag⟩)) ∧
    (∀ (extra : OBJECT_MATERIAL α), extra.tag = tag →
      ∀ (query : String) (m : OBJECT_MATERIAL α),
        (s.push_back extra).FindMaterial query m = s.FindMaterial query m) := by
  constructor
  · obtain ⟨i, r, hir, hrt, hfirst⟩ := exists_first_material_with_tag tag _ hreg
    exact ⟨i, r, hir, hrt, hfirst, FindMaterial_first s tag material i r hir hrt hfirst⟩
  · intro extra hextra query m
    have hne : s.m_objectMaterials ≠ [] := by
      obtain ⟨r, hr, _⟩ := hreg
      intro h
      rw [h] at hr
      simp at hr
    by_cases hq : ∃ r, r ∈ s.m_objectMaterials ∧ r.tag = query
    · obtain ⟨i, r, hir, hrt, hfirst⟩ := exists_first_material_with_tag query _ hq
      have hilt : i < s.m_objectMaterials.length := by
        rcases Nat.lt_or_ge i s.m_objectMaterials.length with h | h
        · exact h
        · rw [List.getElem?_eq_none h] at hir
          cases hir
      rw [FindMaterial_first s query m i r hir hrt hfirst]
      refine FindMaterial_first (s.push_back extra) query m i r ?_ hrt ?_
      · simp only [push_back]
        rw [List.getElem?_append_left hilt]
        exact hir
      · intro j q hj hjq
        simp only [push_back] at hjq
        rw [List.getElem?_append_left (by omega)] at hjq
        exact hfirst j q hj hjq
    · have hmiss : ∀ r : OBJECT_MATERIAL α, r ∈ s.m_objectMaterials → r.tag ≠ query :=
        fun r hr hrt => hq ⟨r, hr, hrt⟩
      rw [FindMaterial_miss s query m hne hmiss]
      refine FindMaterial_miss (s.push_back extra) query m ?_ ?_
      · simp [push_back]
      · intro r hr
        simp only [push_back, List.mem_append, List.mem_singleton] at hr
        rcases hr with hr | rfl
        · exact hmiss r hr
        · intro hrt
          obtain ⟨r0, hr0, hr0t⟩ := hreg
          exact hmiss r0 hr0 (by rw [hr0t, ← hextra, hrt])

theorem C7_first_definition_wins_witness :
    (∃ r, r ∈ Sample.withMaterials.m_objectMaterials ∧ r.tag = "metal") ∧
    Sample.withMaterials.FindMaterial "metal" Sample.blank =
      Except.ok (true, ⟨⟨2, 2, 2⟩, ⟨7, 7, 7⟩, 42, "caller"⟩) ∧
    (Sample.withMaterials.push_back Sample.otherMetal).FindMaterial "metal" Sample.blank =
      Sample.withMaterials.FindMaterial "metal" Sample.blank :=
  ⟨⟨_, List.mem_cons_self _ _, rfl⟩, by decide,
    (C7_first_definition_wins Sample.withMaterials "metal" Sample.blank
      ⟨_, List.mem_cons_self _ _, rfl⟩).2 Sample.otherMetal rfl "metal" Sample.blank⟩

end SceneManager

/-! ## The model transform -/

namespace glm

set_option maxHeartbeats 1000000 in
theorem mat4.toMatrix_mul {α : Type} [CommRing α] (a b : mat4 α) :
    (a.mul b).toMatrix = a.toMatrix * b.toMatrix := by
  ext i j
  rw [Matrix.mul_apply, Fin.sum_univ_four]
  fin_cases i <;> fin_cases j <;>
    (simp only [mat4.toMatrix, mat4.mul, mat4.combine, vec4.add, vec4.scaleBy]
     simp
     try ring)

theorem toMatrix_translate {α : Type} [Ring α] (p : vec3 α) :
    (translate p).toMatrix = Spec.Translate p := by
  ext i j
  fin_cases i <;> fin_cases j <;>
    simp [mat4.toMatrix, translate, translateM, mat4.identity, vec4.add, vec4.scaleBy,
      Spec.Translate]

theorem toMatrix_scale {α : Type} [Ring α] (k : vec3 α) :
    (scale k).toMatrix = Spec.Scale k := by
  ext i j
  fin_cases i <;> fin_cases j <;>
    simp [mat4.toMatrix, scale, scaleM, mat4.identity, vec4.scaleBy, Spec.Scale]

theorem toMatrix_rotate_x {α : Type} [Ring α] (mth : Math α) (angle : α)
    (hone : mth.inversesqrt 1 = 1) :
    (rotate mth angle ⟨1, 0, 0⟩).toMatrix = Spec.RotateX (mth.cos angle) (mth.sin angle) := by
  ext i j
  fin_cases i <;> fin_cases j <;>
    simp [mat4.toMatrix, rotate, rotateM, normalize, dot, vec3.scaleBy, mat4.identity, vec4.add,
      vec4.scaleBy, Spec.RotateX, hone]

theorem toMatrix_rotate_y {α : Type} [Ring α] (mth : Math α) (angle : α)
    (hone : mth.inversesqrt 1 = 1) :
    (rotate mth angle ⟨0, 1, 0⟩).toMatrix = Spec.RotateY (mth.cos angle) (mth.sin angle) := by
  ext i j
  fin_cases i <;> fin_cases j <;>
    simp [mat4.toMatrix, rotate, rotateM, normalize, dot, vec3.scaleBy, mat4.identity, vec4.add,
      vec4.scaleBy, Spec.RotateY, hone]

theorem toMatrix_rotate_z {α : Type} [Ring α] (mth : Math α) (angle : α)
    (hone : mth.inversesqrt 1 = 1) :
    (rotate mth angle ⟨0, 0, 1⟩).toMatrix = Spec.RotateZ (mth.cos angle) (mth.sin angle) := by
  ext i j
  fin_cases i <;> fin_cases j <;>
    simp [mat4.toMatrix, rotate, rotateM, normalize, dot, vec3.scaleBy, mat4.identity, vec4.add,
      vec4.scaleBy, Spec.RotateZ, hone]

end glm

namespace SceneManager

variable {α : Type}

/-- The matrix `SetTransformations` uploads is the product the specification
names, for any scalars on which the inverse square root of 1 is 1. -/
theorem SetTransformations_matrix [CommRing α] (mth : glm.Math α)
    (hone : mth.inversesqrt 1 = 1) (sm : ShaderManager α)
    (tbl : Mathlib.Vector TEXTURE_INFO 16) (n : Nat) (mats : List (OBJECT_MATERIAL α))
    (scaleXYZ : glm.vec3 α) (x y z : α) (positionXYZ : glm.vec3 α) :
    ∃ M : glm.mat4 α,
      SetTransformations mth ⟨some sm, tbl, n, mats⟩ scaleXYZ x y z positionXYZ =
        ⟨some (sm.setMat4Value g_ModelName M), tbl, n, mats⟩ ∧
      M.toMatrix =
        Spec.Translate positionXYZ *
          Spec.RotateZ (mth.cos (z * mth.radiansPerDegree)) (mth.sin (z * mth.radiansPerDegree)) *
          Spec.RotateY (mth.cos (y * mth.radiansPerDegree)) (mth.sin (y * mth.radiansPerDegree)) *
          Spec.RotateX (mth.cos (x * mth.radiansPerDegree)) (mth.sin (x * mth.radiansPerDegree)) *
          Spec.Scale scaleXYZ := by
  refine ⟨_, rfl, ?_⟩
  simp only [glm.mat4.toMatrix_mul, glm.toMatrix_translate, glm.toMatrix_scale,
    glm.toMatrix_rotate_x mth _ hone, glm.toMatrix_rotate_y mth _ hone,
    glm.toMatrix_rotate_z mth _ hone, glm.radians]

theorem real_inversesqrt_one : (fun v : ℝ => (Real.sqrt v)⁻¹) 1 = 1 := by
  simp

theorem real_cos_ninety : Real.cos (90 * (Real.pi / 180)) = 0 := by
  have h : (90 : ℝ) * (Real.pi / 180) = Real.pi / 2 := by ring
  rw [h, Real.cos_pi_div_two]

theorem real_sin_ninety : Real.sin (90 * (Real.pi / 180)) = 1 := by
  have h : (90 : ℝ) * (Real.pi / 180) = Real.pi / 2 := by ring
  rw [h, Real.sin_pi_div_two]

theorem spec_rotateZ_zero :
    Spec.RotateZ (Real.cos (0 * (Real.pi / 180))) (Real.sin (0 * (Real.pi / 180))) =
      (1 : Matrix (Fin 4) (Fin 4) ℝ) := by
  simp only [zero_mul, Real.cos_zero, Real.sin_zero, Spec.RotateZ, neg_zero]
  ext i j
  fin_cases i <;> fin_cases j <;> rfl

theorem spec_rotateX_zero :
    Spec.RotateX (Real.cos (0 * (Real.pi / 180))) (Real.sin (0 * (Real.pi / 180))) =
      (1 : Matrix (Fin 4) (Fin 4) ℝ) := by
  simp only [zero_mul, Real.cos_zero, Real.sin_zero, Spec.RotateX, neg_zero]
  ext i j
  fin_cases i <;> fin_cases j <;> rfl

theorem spec_example_point :
    (Spec.Translate (⟨5, 0, 0⟩ : glm.vec3 ℝ) * Spec.RotateY 0 1 *
      Spec.Scale ⟨2, 1, 1⟩).mulVec ![1, 0, 0, 1] = ![5, 0, -2, 1] := by
  ext i
  fin_cases i <;>
    simp [Spec.Translate, Spec.RotateY, Spec.Scale, Matrix.mulVec, Matrix.mul_apply,
      Matrix.dotProduct, Fin.sum_univ_four]

/-- C8: over the real numbers, with cos, sin and the inverse square root exact
and pi/180 as the degree-to-radian factor, SetTransformations on a manager
with a shader manager uploads under "model" the matrix
M = Translate(position) · RotateZ(z) · RotateY(y) · RotateX(x) · Scale(scale),
in that order; for scale (2,1,1), rotation (0,90,0), position (5,0,0) this M is
Translate(5,0,0) · RotateY(90°) · Scale(2,1,1) and sends (1,0,0) to (5,0,-2). -/
theorem C8_model_matrix_composition (sm : ShaderManager ℝ)
    (tbl : Mathlib.Vector TEXTURE_INFO 16) (n : Nat) (mats : List (OBJECT_MATERIAL ℝ))
    (scaleXYZ : glm.vec3 ℝ) (x y z : ℝ) (positionXYZ : glm.vec3 ℝ) :
    (∃ M : glm.mat4 ℝ,
      SetTransformations ⟨Real.cos, Real.sin, fun v => (Real.sqrt v)⁻¹, Real.pi / 180⟩
          ⟨some sm, tbl, n, mats⟩ scaleXYZ x y z positionXYZ =
        ⟨some (sm.setMat4Value g_ModelName M), tbl, n, mats⟩ ∧
      (sm.setMat4Value g_ModelName M).uniform "model" = some (UniformValue.mat4 M) ∧
      M.toMatrix =
        Spec.Translate positionXYZ *
          Spec.RotateZ (Real.cos (z * (Real.pi / 180))) (Real.sin (z * (Real.pi / 180))) *
          Spec.RotateY (Real.cos (y * (Real.pi / 180))) (Real.sin (y * (Real.pi / 180))) *
          Spec.RotateX (Real.cos (x * (Real.pi / 180))) (Real.sin (x * (Real.pi / 180))) *
          Spec.Scale scaleXYZ) ∧
    (∃ M : glm.mat4 ℝ,
      SetTransformations ⟨Real.cos, Real.sin, fun v => (Real.sqrt v)⁻¹, Real.pi / 180⟩
          ⟨some sm, tbl, n, mats⟩ ⟨2, 1, 1⟩ 0 90 0 ⟨5, 0, 0⟩ =
        ⟨some (sm.setMat4Value g_ModelName M), tbl, n, mats⟩ ∧
      M.toMatrix =
        Spec.Translate ⟨5, 0, 0⟩ *
          Spec.RotateY (Real.cos (90 * (Real.pi / 180))) (Real.sin (90 * (Real.pi / 180))) *
          Spec.Scale ⟨2, 1, 1⟩ ∧
      M.toMatrix.mulVec ![1, 0, 0, 1] = ![5, 0, -2, 1]) := by
  constructor
  · obtain ⟨M, hM, hmat⟩ := SetTransformations_matrix
      ⟨Real.cos, Real.sin, fun v => (Real.sqrt v)⁻¹, Real.pi / 180⟩ real_inversesqrt_one
      sm tbl n mats scaleXYZ x y z positionXYZ
    refine ⟨M, hM, ?_, hmat⟩
    simp [ShaderManager.uniform, ShaderManager.setMat4Value, g_ModelName, List.lookup]
  · obtain ⟨M, hM, hmat⟩ := SetTransformations_matrix
      ⟨Real.cos, Real.sin, fun v => (Real.sqrt v)⁻¹, Real.pi / 180⟩ real_inversesqrt_one
      sm tbl n mats ⟨2, 1, 1⟩ 0 90 0 ⟨5, 0, 0⟩
    simp only at hmat
    rw [spec_rotateZ_zero, spec_rotateX_zero, Matrix.mul_one, Matrix.mul_one] at hmat
    refine ⟨M, hM, hmat, ?_⟩
    rw [hmat, real_cos_ninety, real_sin_ninety]
    exact spec_example_point

/-! ## The render-state binder -/

theorem FindTextureSlot_loop_congr (s t : SceneManager α) (tag : String)
    (htbl : s.m_textureIDs = t.m_textureIDs) (hn : s.m_loadedTextures = t.m_loadedTextures) :
    ∀ (fuel index : Nat) (textureSlot : Int) (bFound : Bool),
      FindTextureSlot.loop s tag fuel index textureSlot bFound =
        FindTextureSlot.loop t tag fuel index textureSlot bFound := by
  have hat : ∀ j : Nat, s.textureAt j = t.textureAt j := by
    intro j
    unfold textureAt
    rw [htbl]
  intro fuel
  induction fuel with
  | zero =>
    intro index textureSlot bFound
    unfold FindTextureSlot.loop
    rw [hn]
  | succ fuel ih =>
    intro index textureSlot bFound
    unfold FindTextureSlot.loop
    rw [hn, hat]
    simp only [ih]

/-- The lookup `FindTextureSlot` reads the table and the load counter only. -/
theorem FindTextureSlot_congr (s t : SceneManager α) (tag : String)
    (htbl : s.m_textureIDs = t.m_textureIDs) (hn : s.m_loadedTextures = t.m_loadedTextures) :
    s.FindTextureSlot tag = t.FindTextureSlot tag := by
  unfold FindTextureSlot
  rw [FindTextureSlot_loop_congr s t tag htbl hn, hn]

/-- With the load counter within the table, `FindTextureSlot` returns a value,
and that value is `-1` when no record below the counter has the tag. -/
theorem FindTextureSlot_total (s : SceneManager α) (tag : String)
    (hcap : s.m_loadedTextures ≤ 16) :
    ∃ r : Int, s.FindTextureSlot tag = Except.ok r ∧
      ((∀ (j : Nat) (q : TEXTURE_INFO), j < s.m_loadedTextures →
        s.textureAt j = Except.ok q → q.tag ≠ tag) → r = -1) := by
  rcases first_record_with_tag s tag s.m_loadedTextures hcap with
    hnone | ⟨i, q, hi, hq, htag, hfirst⟩
  · exact ⟨-1, FindTextureSlot_none s tag hcap hnone, fun _ => rfl⟩
  · exact ⟨(i : Int), FindTextureSlot_first s tag hcap i q hi hq htag hfirst,
      fun hmiss => absurd htag (hmiss i q hi hq)⟩

/-- What `SetShaderColor` does when a shader manager is present. -/
theorem SetShaderColor_some (s : SceneManager α) (sm : ShaderManager α)
    (hsm : s.m_pShaderManager = some sm) (r g b a : α) :
    s.SetShaderColor r g b a =
      { s with
        m_pShaderManager :=
          some ((sm.setIntValue g_UseTextureName (boolToInt false)).setVec4Value
            g_ColorValueName ⟨r, g, b, a⟩) } := by
  unfold SetShaderColor
  rw [hsm]

/-- What `SetShaderTexture` does when a shader manager is present and the slot
lookup returns. -/
theorem SetShaderTexture_some (s : SceneManager α) (sm : ShaderManager α)
    (hsm : s.m_pShaderManager = some sm) (tag : String) (slot : Int)
    (hslot : s.FindTextureSlot tag = Except.ok slot) :
    s.SetShaderTexture tag =
      Except.ok
        { s with
          m_pShaderManager :=
            some ((sm.setIntValue g_UseTextureName (boolToInt true)).setSampler2DValue
              g_TextureValueName slot) } := by
  unfold SetShaderTexture
  rw [hsm]
  simp only [hslot]

/-- C9: on a manager with a shader manager, SetShaderColor(r,g,b,a) leaves the
"bUseTexture" uniform at false (int 0) and "objectColor" at (r,g,b,a), and
SetShaderTexture leaves "bUseTexture" at true (int 1); SetShaderColor followed
by SetShaderTexture ends with the flag true, SetShaderTexture followed by
SetShaderColor ends with it false. -/
theorem C9_color_and_texture_last_call_wins (s : SceneManager α) (sm : ShaderManager α)
    (r g b a : α) (tag : String)
    (hsm : s.m_pShaderManager = some sm) (hcap : s.m_loadedTextures ≤ 16) :
    (∃ sm1 : ShaderManager α,
      s.SetShaderColor r g b a = { s with m_pShaderManager := some sm1 } ∧
      sm1.uniform "bUseTexture" = some (UniformValue.int 0) ∧
      sm1.uniform "objectColor" = some (UniformValue.vec4 ⟨r, g, b, a⟩)) ∧
    (∃ sm2 : ShaderManager α,
      s.SetShaderTexture tag = Except.ok { s with m_pShaderManager := some sm2 } ∧
      sm2.uniform "bUseTexture" = some (UniformValue.int 1)) ∧
    (∃ sm3 : ShaderManager α,
      (s.SetShaderColor r g b a).SetShaderTexture tag =
        Except.ok { s with m_pShaderManager := some sm3 } ∧
      sm3.uniform "bUseTexture" = some (UniformValue.int 1)) ∧
    (∃ (t : SceneManager α) (sm4 : ShaderManager α),
      s.SetShaderTexture tag = Except.ok t ∧
      t.SetShaderColor r g b a = { s with m_pShaderManager := some sm4 } ∧
      sm4.uniform "bUseTexture" = some (UniformValue.int 0)) := by
  obtain ⟨slot, hslot, -⟩ := FindTextureSlot_total s tag hcap
  have hcolor := SetShaderColor_some s sm hsm r g b a
  have htex := SetShaderTexture_some s sm hsm tag slot hslot
  refine ⟨⟨_, hcolor, ?_, ?_⟩, ⟨_, htex, ?_⟩, ?_, ?_⟩
  · simp [ShaderManager.uniform, ShaderManager.setIntValue, ShaderManager.setVec4Value,
      g_UseTextureName, g_ColorValueName, List.lookup, boolToInt]
  · simp [ShaderManager.uniform, ShaderManager.setIntValue, ShaderManager.setVec4Value,
      g_ColorValueName, List.lookup]
  · simp [ShaderManager.uniform, ShaderManager.setIntValue, ShaderManager.setSampler2DValue,
      g_UseTextureName, g_TextureValueName, List.lookup, boolToInt]
  · rw [hcolor]
    have hslot2 : ({ s with
        m_pShaderManager :=
          some ((sm.setIntValue g_UseTextureName (boolToInt false)).setVec4Value
            g_ColorValueName ⟨r, g, b, a⟩) } : SceneManager α).FindTextureSlot tag =
        Except.ok slot := by
      rw [← hslot]
      exact FindTextureSlot_congr _ _ tag rfl rfl
    refine ⟨_, SetShaderTexture_some _ _ rfl tag slot hslot2, ?_⟩
    simp [ShaderManager.uniform, ShaderManager.setIntValue, ShaderManager.setSampler2DValue,
      g_UseTextureName, g_TextureValueName, List.lookup, boolToInt]
  · refine ⟨_, _, htex, SetShaderColor_some _ _ rfl r g b a, ?_⟩
    simp [ShaderManager.uniform, ShaderManager.setIntValue, ShaderManager.setVec4Value,
      g_UseTextureName, g_ColorValueName, List.lookup, boolToInt]

theorem C9_color_and_texture_last_call_wins_witness :
    Sample.twoLoaded.m_pShaderManager = some ⟨[]⟩ ∧
    Sample.twoLoaded.m_loadedTextures ≤ 16 ∧
    (∃ sm3 : ShaderManager ℚ,
      (Sample.twoLoaded.SetShaderColor 1 0 0 1).SetShaderTexture "Wood" =
        Except.ok { Sample.twoLoaded with m_pShaderManager := some sm3 } ∧
      sm3.uniform "bUseTexture" = some (UniformValue.int 1)) ∧
    (∃ (t : SceneManager ℚ) (sm4 : ShaderManager ℚ),
      Sample.twoLoaded.SetShaderTexture "Wood" = Except.ok t ∧
      t.SetShaderColor 1 0 0 1 = { Sample.twoLoaded with m_pShaderManager := some sm4 } ∧
      sm4.uniform "bUseTexture" = some (UniformValue.int 0)) :=
  ⟨rfl, by decide,
    (C9_color_and_texture_last_call_wins Sample.twoLoaded ⟨[]⟩ 1 0 0 1 "Wood" rfl
      (by decide)).2.2⟩

/-- C10: on a manager with a shader manager and the load counter within the
table, SetShaderTexture(tag) leaves "bUseTexture" at true (int 1) and
"objectTexture" at exactly the value FindTextureSlot(tag) returns; when no
record has the tag that value is -1, uploaded all the same. -/
theorem C10_texture_pushes_resolved_slot (s : SceneManager α) (sm : ShaderManager α)
    (tag : String) (hsm : s.m_pShaderManager = some sm) (hcap : s.m_loadedTextures ≤ 16) :
    ∃ (slot : Int) (sm1 : ShaderManager α),
      s.FindTextureSlot tag = Except.ok slot ∧
      s.SetShaderTexture tag = Except.ok { s with m_pShaderManager := some sm1 } ∧
      sm1.uniform "bUseTexture" = some (UniformValue.int 1) ∧
      sm1.uniform "objectTexture" = some (UniformValue.sampler2D slot) ∧
      ((∀ (j : Nat) (q : TEXTURE_INFO), j < s.m_loadedTextures →
          s.textureAt j = Except.ok q → q.tag ≠ tag) →
        slot = -1 ∧ sm1.uniform "objectTexture" = some (UniformValue.sampler2D (-1))) := by
  obtain ⟨slot, hslot, hmiss⟩ := FindTextureSlot_total s tag hcap
  have hflag : ((sm.setIntValue g_UseTextureName (boolToInt true)).setSampler2DValue
      g_TextureValueName slot).uniform "bUseTexture" = some (UniformValue.int 1) := by
    simp [ShaderManager.uniform, ShaderManager.setIntValue, ShaderManager.setSampler2DValue,
      g_UseTextureName, g_TextureValueName, List.lookup, boolToInt]
  have hsampler : ((sm.setIntValue g_UseTextureName (boolToInt true)).setSampler2DValue
      g_TextureValueName slot).uniform "objectTexture" =
        some (UniformValue.sampler2D slot) := by
    simp [ShaderManager.uniform, ShaderManager.setSampler2DValue, g_TextureValueName,
      List.lookup]
  refine ⟨slot, _, hslot, SetShaderTexture_some s sm hsm tag slot hslot, hflag, hsampler, ?_⟩
  intro hnone
  have h := hmiss hnone
  subst h
  exact ⟨rfl, hsampler⟩

theorem C10_texture_pushes_resolved_slot_witness :
    Sample.twoLoaded.m_pShaderManager = some ⟨[]⟩ ∧
    Sample.twoLoaded.m_loadedTextures ≤ 16 ∧
    Sample.twoLoaded.FindTextureSlot "Glass" = Except.ok 1 ∧
    Sample.twoLoaded.FindTextureSlot "Brick" = Except.ok (-1) ∧
    ∃ (slot : Int) (sm1 : ShaderManager ℚ),
      Sample.twoLoaded.FindTextureSlot "Brick" = Except.ok slot ∧
      Sample.twoLoaded.SetShaderTexture "Brick" =
        Except.ok { Sample.twoLoaded with m_pShaderManager := some sm1 } ∧
      sm1.uniform "bUseTexture" = some (UniformValue.int 1) ∧
      sm1.uniform "objectTexture" = some (UniformValue.sampler2D slot) ∧
      ((∀ (j : Nat) (q : TEXTURE_INFO), j < Sample.twoLoaded.m_loadedTextures →
          Sample.twoLoaded.textureAt j = Except.ok q → q.tag ≠ "Brick") →
        slot = -1 ∧ sm1.uniform "objectTexture" = some (UniformValue.sampler2D (-1))) :=
  ⟨rfl, by decide, by decide, by decide,
    C10_texture_pushes_resolved_slot Sample.twoLoaded ⟨[]⟩ "Brick" rfl (by decide)⟩

/-! ## The overlay and the material uploads -/

theorem string_length_pos_of_ne_empty (tag : String) (h : tag ≠ "") : tag.length > 0 := by
  cases tag with
  | mk data =>
    cases data with
    | nil => exact absurd rfl h
    | cons c cs => simp [String.length]

/-- What `SetShaderTextureOverlay` does with a non-empty tag when a shader
manager is present and the slot lookup returns. -/
theorem SetShaderTextureOverlay_some (s : SceneManager α) (sm : ShaderManager α)
    (hsm : s.m_pShaderManager = some sm) (tag : String) (slot : Int)
    (hlen : tag.length > 0) (hslot : s.FindTextureSlot tag = Except.ok slot) :
    s.SetShaderTextureOverlay tag =
      Except.ok
        { s with
          m_pShaderManager :=
            some ((sm.setIntValue g_UseTextureOverlayName (boolToInt true)).setSampler2DValue
              g_TextureOverlayValueName slot) } := by
  unfold SetShaderTextureOverlay
  rw [hsm]
  simp only [hlen, if_true, hslot]

/-- What `SetShaderTextureOverlay` does with the empty tag when a shader
manager is present. -/
theorem SetShaderTextureOverlay_empty (s : SceneManager α) (sm : ShaderManager α)
    (hsm : s.m_pShaderManager = some sm) :
    s.SetShaderTextureOverlay "" =
      Except.ok
        { s with
          m_pShaderManager :=
            some (sm.setIntValue g_UseTextureOverlayName (boolToInt false)) } := by
  unfold SetShaderTextureOverlay
  rw [hsm]
  rfl

/-- C11: on a manager with a shader manager and the load counter within the
table, SetShaderTextureOverlay with a non-empty tag leaves "bUseTextureOverlay"
at true (int 1) and "overlayTexture" at the value FindTextureSlot returns for
the tag; with the empty tag it leaves the flag at false (int 0) and
"overlayTexture" at its previous value; and for every tag X the call with X
followed by the call with the empty tag ends with the flag at false. -/
theorem C11_overlay_enable_and_disable (s : SceneManager α) (sm : ShaderManager α)
    (tag : String) (hsm : s.m_pShaderManager = some sm) (hcap : s.m_loadedTextures ≤ 16) :
    (tag ≠ "" →
      ∃ (slot : Int) (sm1 : ShaderManager α),
        s.FindTextureSlot tag = Except.ok slot ∧
        s.SetShaderTextureOverlay tag = Except.ok { s with m_pShaderManager := some sm1 } ∧
        sm1.uniform "bUseTextureOverlay" = some (UniformValue.int 1) ∧
        sm1.uniform "overlayTexture" = some (UniformValue.sampler2D slot)) ∧
    (∃ sm2 : ShaderManager α,
      s.SetShaderTextureOverlay "" = Except.ok { s with m_pShaderManager := some sm2 } ∧
      sm2.uniform "bUseTextureOverlay" = some (UniformValue.int 0) ∧
      sm2.uniform "overlayTexture" = sm.uniform "overlayTexture") ∧
    (∃ (t : SceneManager α) (sm3 : ShaderManager α),
      s.SetShaderTextureOverlay tag = Except.ok t ∧
      t.SetShaderTextureOverlay "" = Except.ok { s with m_pShaderManager := some sm3 } ∧
      sm3.uniform "bUseTextureOverlay" = some (UniformValue.int 0)) := by
  obtain ⟨slot, hslot, -⟩ := FindTextureSlot_total s tag hcap
  have hoff := SetShaderTextureOverlay_empty s sm hsm
  refine ⟨?_, ⟨_, hoff, ?_, ?_⟩, ?_⟩
  · intro hne
    have hon := SetShaderTextureOverlay_some s sm hsm tag slot
      (string_length_pos_of_ne_empty tag hne) hslot
    refine ⟨slot, _, hslot, hon, ?_, ?_⟩
    · simp [ShaderManager.uniform, ShaderManager.setIntValue, ShaderManager.setSampler2DValue,
        g_UseTextureOverlayName, g_TextureOverlayValueName, List.lookup, boolToInt]
    · simp [ShaderManager.uniform, ShaderManager.setSampler2DValue,
        g_TextureOverlayValueName, List.lookup]
  · simp [ShaderManager.uniform, ShaderManager.setIntValue, g_UseTextureOverlayName,
      List.lookup, boolToInt]
  · simp [ShaderManager.uniform, ShaderManager.setIntValue, g_UseTextureOverlayName,
      List.lookup]
  · by_cases hne : tag = ""
    · subst hne
      refine ⟨_, _, hoff, SetShaderTextureOverlay_empty _ _ rfl, ?_⟩
      simp [ShaderManager.uniform, ShaderManager.setIntValue, g_UseTextureOverlayName,
        List.lookup, boolToInt]
    · have hon := SetShaderTextureOverlay_some s sm hsm tag slot
        (string_length_pos_of_ne_empty tag hne) hslot
      refine ⟨_, _, hon, SetShaderTextureOverlay_empty _ _ rfl, ?_⟩
      simp [ShaderManager.uniform, ShaderManager.setIntValue, g_UseTextureOverlayName,
        List.lookup, boolToInt]

theorem C11_overlay_enable_and_disable_witness :
    Sample.twoLoaded.m_pShaderManager = some ⟨[]⟩ ∧
    Sample.twoLoaded.m_loadedTextures ≤ 16 ∧
    ∃ (t : SceneManager ℚ) (sm3 : ShaderManager ℚ),
      Sample.twoLoaded.SetShaderTextureOverlay "Glass" = Except.ok t ∧
      t.SetShaderTextureOverlay "" =
        Except.ok { Sample.twoLoaded with m_pShaderManager := some sm3 } ∧
      sm3.uniform "bUseTextureOverlay" = some (UniformValue.int 0) :=
  ⟨rfl, by decide,
    (C11_overlay_enable_and_disable Sample.twoLoaded ⟨[]⟩ "Glass" rfl (by decide)).2.2⟩

/-- On a non-empty library `FindMaterial` returns `true`, whatever the tag. -/
theorem FindMaterial_total (s : SceneManager α) (tag : String) (material : OBJECT_MATERIAL α)
    (hne : s.m_objectMaterials ≠ []) :
    ∃ found : OBJECT_MATERIAL α, s.FindMaterial tag material = Except.ok (true, found) := by
  by_cases hq : ∃ r, r ∈ s.m_objectMaterials ∧ r.tag = tag
  · obtain ⟨i, r, hir, hrt, hfirst⟩ := exists_first_material_with_tag tag _ hq
    exact ⟨_, FindMaterial_first s tag material i r hir hrt hfirst⟩
  · exact ⟨material, FindMaterial_miss s tag material hne (fun r hr hrt => hq ⟨r, hr, hrt⟩)⟩

/-- With an empty library `SetShaderMaterial` returns the manager as it is. -/
theorem SetShaderMaterial_empty (s : SceneManager α) (tag : String)
    (material : OBJECT_MATERIAL α) (hempty : s.m_objectMaterials = []) :
    s.SetShaderMaterial tag material = Except.ok s := by
  unfold SetShaderMaterial
  simp [hempty]

/-- What `SetShaderMaterial` does when the lookup returns `true` and a shader
manager is present. -/
theorem SetShaderMaterial_some (s : SceneManager α) (sm : ShaderManager α) (tag : String)
    (material found : OBJECT_MATERIAL α) (hsm : s.m_pShaderManager = some sm)
    (hfind : s.FindMaterial tag material = Except.ok (true, found)) :
    s.SetShaderMaterial tag material =
      Except.ok
        { s with
          m_pShaderManager :=
            some (((sm.setVec3Value "material.diffuseColor" found.diffuseColor).setVec3Value
              "material.specularColor" found.specularColor).setFloatValue
              "material.shininess" found.shininess) } := by
  have hlen : s.m_objectMaterials.length > 0 := by
    rcases Nat.eq_zero_or_pos s.m_objectMaterials.length with h | h
    · have hfalse : s.FindMaterial tag material = Except.ok (false, material) := by
        unfold FindMaterial
        simp [h]
      rw [hfalse] at hfind
      cases hfind
    · exact h
  unfold SetShaderMaterial
  simp only [hlen, if_true, hfind, hsm]

/-- With a non-empty library and no shader manager, `SetShaderMaterial` runs
into the call through the null pointer. -/
theorem SetShaderMaterial_null (s : SceneManager α) (tag : String)
    (material : OBJECT_MATERIAL α) (hnull : s.m_pShaderManager = none)
    (hne : s.m_objectMaterials ≠ []) :
    s.SetShaderMaterial tag material = Except.error Fault.nullPointer := by
  obtain ⟨found, hfind⟩ := FindMaterial_total s tag material hne
  have hlen : s.m_objectMaterials.length > 0 := by
    rcases Nat.eq_zero_or_pos s.m_objectMaterials.length with h | h
    · exact absurd (List.length_eq_zero.mp h) hne
    · exact h
  unfold SetShaderMaterial
  simp only [hlen, if_true, hfind, hnull]

/-- C12: SetShaderMaterial returns the manager unchanged, uploads included,
when the material library is empty; on a manager with a shader manager whose
library holds a record with the tag it leaves "material.diffuseColor",
"material.specularColor" and "material.shininess" at the fields of the first
record with that tag. -/
theorem C12_material_upload (s : SceneManager α) (tag : String)
    (material : OBJECT_MATERIAL α) :
    (s.m_objectMaterials = [] → s.SetShaderMaterial tag material = Except.ok s) ∧
    (∀ sm : ShaderManager α, s.m_pShaderManager = some sm →
      (∃ r, r ∈ s.m_objectMaterials ∧ r.tag = tag) →
      ∃ (i : Nat) (r : OBJECT_MATERIAL α) (sm1 : ShaderManager α),
        s.m_objectMaterials[i]? = some r ∧ r.tag = tag ∧
        (∀ (j : Nat) (q : OBJECT_MATERIAL α), j < i →
          s.m_objectMaterials[j]? = some q → q.tag ≠ tag) ∧
        s.SetShaderMaterial tag material = Except.ok { s with m_pShaderManager := some sm1 } ∧
        sm1.uniform "material.diffuseColor" = some (UniformValue.vec3 r.diffuseColor) ∧
        sm1.uniform "material.specularColor" = some (UniformValue.vec3 r.specularColor) ∧
        sm1.uniform "material.shininess" = some (UniformValue.float r.shininess)) := by
  refine ⟨SetShaderMaterial_empty s tag material, ?_⟩
  intro sm hsm hreg
  obtain ⟨i, r, hir, hrt, hfirst⟩ := exists_first_material_with_tag tag _ hreg
  have hfind := FindMaterial_first s tag material i r hir hrt hfirst
  refine ⟨i, r, _, hir, hrt, hfirst, SetShaderMaterial_some s sm tag material _ hsm hfind,
    ?_, ?_, ?_⟩
  · simp [ShaderManager.uniform, ShaderManager.setVec3Value, ShaderManager.setFloatValue,
      List.lookup]
  · simp [ShaderManager.uniform, ShaderManager.setVec3Value, ShaderManager.setFloatValue,
      List.lookup]
  · simp [ShaderManager.uniform, ShaderManager.setFloatValue, List.lookup]

theorem C12_material_upload_witness :
    (Sample.twoLoaded.m_objectMaterials = [] ∧
      Sample.twoLoaded.SetShaderMaterial "wood" Sample.blank = Except.ok Sample.twoLoaded) ∧
    (Sample.withMaterials.m_pShaderManager = some ⟨[]⟩ ∧
      (∃ r, r ∈ Sample.withMaterials.m_objectMaterials ∧ r.tag = "wood") ∧
      ∃ (i : Nat) (r : OBJECT_MATERIAL ℚ) (sm1 : ShaderManager ℚ),
        Sample.withMaterials.m_objectMaterials[i]? = some r ∧ r.tag = "wood" ∧
        (∀ (j : Nat) (q : OBJECT_MATERIAL ℚ), j < i →
          Sample.withMaterials.m_objectMaterials[j]? = some q → q.tag ≠ "wood") ∧
        Sample.withMaterials.SetShaderMaterial "wood" Sample.blank =
          Except.ok { Sample.withMaterials with m_pShaderManager := some sm1 } ∧
        sm1.uniform "material.diffuseColor" = some (UniformValue.vec3 r.diffuseColor) ∧
        sm1.uniform "material.specularColor" = some (UniformValue.vec3 r.specularColor) ∧
        sm1.uniform "material.shininess" = some (UniformValue.float r.shininess)) :=
  ⟨⟨rfl, (C12_material_upload Sample.twoLoaded "wood" Sample.blank).1 rfl⟩,
    ⟨rfl, ⟨⟨⟨6, 3, 2⟩, ⟨2, 2, 2⟩, 8, "wood"⟩, by decide, rfl⟩,
      (C12_material_upload Sample.withMaterials "wood" Sample.blank).2 ⟨[]⟩ rfl
        ⟨⟨⟨6, 3, 2⟩, ⟨2, 2, 2⟩, 8, "wood"⟩, by decide, rfl⟩⟩⟩

/-! ## Teardown -/

/-- C13: in the scenario that registers "Wood" then "Glass" on a fresh manager,
FindTextureSlot("Glass") returns 1 before DestroyGLTextures and still returns 1
after it, not the NotFound value -1: the teardown stores newly generated names
into the IDs of the loaded records and leaves their tags and the load counter
as they were. -/
theorem C13_teardown_keeps_table :
    (new (some ⟨[]⟩) : SceneManager ℚ).loadSequence Sample.woodThenGlass =
      Except.ok Sample.twoLoaded ∧
    Sample.twoLoaded.FindTextureSlot "Glass" = Except.ok 1 ∧
    Sample.twoLoaded.DestroyGLTextures Sample.freshNames = Except.ok Sample.afterTeardown ∧
    Sample.afterTeardown.m_loadedTextures = 2 ∧
    Sample.afterTeardown.FindTextureSlot "Glass" = Except.ok 1 ∧
    Sample.afterTeardown.FindTextureSlot "Glass" ≠ Except.ok (-1) ∧
    Sample.afterTeardown.FindTextureID "Glass" = Except.ok 102 :=
  ⟨by decide, by decide, by decide, by decide, by decide, by decide, by decide⟩

/-! ## Binding the textures -/

theorem BindGLTextures_loop_spec (s : SceneManager α) (hcap : s.m_loadedTextures ≤ 16) :
    ∀ (fuel i : Nat) (gl : GLState),
      s.m_loadedTextures ≤ i + fuel →
      ∃ gl1 : GLState, BindGLTextures.loop s fuel i gl = Except.ok gl1 ∧
        (∀ (u : Nat) (r : TEXTURE_INFO), i ≤ u → u < s.m_loadedTextures →
          s.textureAt u = Except.ok r → gl1.boundTexture2D u = r.ID) ∧
        (∀ u : Nat, u < i ∨ s.m_loadedTextures ≤ u →
          gl1.boundTexture2D u = gl.boundTexture2D u) ∧
        (i < s.m_loadedTextures → gl1.activeTexture = s.m_loadedTextures - 1) ∧
        (s.m_loadedTextures ≤ i → gl1 = gl) := by
  intro fuel
  induction fuel with
  | zero =>
    intro i gl hfuel
    have hdone : ¬ i < s.m_loadedTextures := by omega
    refine ⟨gl, ?_, ?_, fun _ _ => rfl, fun h => absurd h hdone, fun _ => rfl⟩
    · unfold BindGLTextures.loop
      simp [hdone]
    · intro u r hu hun
      omega
  | succ fuel ih =>
    intro i gl hfuel
    by_cases hlt : i < s.m_loadedTextures
    · have h16 : i < 16 := by omega
      obtain ⟨gl1, hrun, hbound, hrest, hactive, hsame⟩ :=
        ih (i + 1) ((gl.glActiveTexture i).glBindTexture2D (s.m_textureIDs.get ⟨i, h16⟩).ID)
          (by omega)
      have hself : gl1.boundTexture2D i = (s.m_textureIDs.get ⟨i, h16⟩).ID := by
        rw [hrest i (Or.inl (Nat.lt_succ_self i))]
        simp [GLState.glBindTexture2D, GLState.glActiveTexture]
      refine ⟨gl1, ?_, ?_, ?_, ?_, fun h => absurd hlt (by omega)⟩
      · unfold BindGLTextures.loop
        simp only [hlt, if_true, textureAt_of_lt s i h16]
        exact hrun
      · intro u r hu hun hr
        by_cases hui : u = i
        · subst hui
          rw [textureAt_of_lt s u h16] at hr
          cases hr
          exact hself
        · exact hbound u r (by omega) hun hr
      · intro u hu
        have hui : u ≠ i := by omega
        rw [hrest u (by omega)]
        simp [GLState.glBindTexture2D, GLState.glActiveTexture, Function.update, hui]
      · intro _
        by_cases hnext : i + 1 < s.m_loadedTextures
        · exact hactive hnext
        · rw [hsame (by omega)]
          simp only [GLState.glBindTexture2D, GLState.glActiveTexture]
          omega
    · refine ⟨gl, ?_, ?_, fun _ _ => rfl, fun h => absurd h hlt, fun _ => rfl⟩
      · unfold BindGLTextures.loop
        simp [hlt]
      · intro u r hu hun
        omega

/-- What `BindGLTextures` leaves behind when the load counter is within the
table. -/
theorem BindGLTextures_spec (s : SceneManager α) (gl : GLState)
    (hcap : s.m_loadedTextures ≤ 16) :
    ∃ gl1 : GLState, s.BindGLTextures gl = Except.ok (s, gl1) ∧
      (∀ (u : Nat) (r : TEXTURE_INFO), u < s.m_loadedTextures →
        s.textureAt u = Except.ok r → gl1.boundTexture2D u = r.ID) ∧
      (∀ u : Nat, s.m_loadedTextures ≤ u → gl1.boundTexture2D u = gl.boundTexture2D u) ∧
      (0 < s.m_loadedTextures → gl1.activeTexture = s.m_loadedTextures - 1) ∧
      (s.m_loadedTextures = 0 → gl1 = gl) := by
  obtain ⟨gl1, hrun, hbound, hrest, hactive, hsame⟩ :=
    BindGLTextures_loop_spec s hcap s.m_loadedTextures 0 gl (by omega)
  refine ⟨gl1, ?_, fun u r hu hr => hbound u r (Nat.zero_le u) hu hr,
    fun u hu => hrest u (Or.inr hu), hactive, fun h => hsame (by omega)⟩
  unfold BindGLTextures
  rw [hrun]

/-- C14: with n ≤ 16 records, BindGLTextures returns the manager as it was
together with an OpenGL state in which unit i holds the handle of record i for
every i < n and every unit from n on holds what it held before; the units are
visited in increasing order, so unit n-1 is the active one at the end; and a
second call on the result changes nothing. -/
theorem C14_bind_all_is_idempotent (s : SceneManager α) (gl : GLState)
    (hcap : s.m_loadedTextures ≤ 16) :
    ∃ gl1 : GLState, s.BindGLTextures gl = Except.ok (s, gl1) ∧
      (∀ (u : Nat) (r : TEXTURE_INFO), u < s.m_loadedTextures →
        s.textureAt u = Except.ok r → gl1.boundTexture2D u = r.ID) ∧
      (∀ u : Nat, s.m_loadedTextures ≤ u → gl1.boundTexture2D u = gl.boundTexture2D u) ∧
      (0 < s.m_loadedTextures → gl1.activeTexture = s.m_loadedTextures - 1) ∧
      (s.m_loadedTextures = 0 → gl1 = gl) ∧
      s.BindGLTextures gl1 = Except.ok (s, gl1) := by
  obtain ⟨gl1, hrun, hbound, hrest, hactive, hsame⟩ := BindGLTextures_spec s gl hcap
  obtain ⟨gl2, hrun2, hbound2, hrest2, hactive2, hsame2⟩ := BindGLTextures_spec s gl1 hcap
  refine ⟨gl1, hrun, hbound, hrest, hactive, hsame, ?_⟩
  have heq : gl2 = gl1 := by
    rcases Nat.eq_zero_or_pos s.m_loadedTextures with h0 | hpos
    · exact hsame2 h0
    · have hb : gl2.boundTexture2D = gl1.boundTexture2D := by
        funext u
        by_cases hu : u < s.m_loadedTextures
        · have h16 : u < 16 := by omega
          rw [hbound2 u _ hu (textureAt_of_lt s u h16), hbound u _ hu (textureAt_of_lt s u h16)]
        · exact hrest2 u (by omega)
      have ha : gl2.activeTexture = gl1.activeTexture := by
        rw [hactive2 hpos, hactive hpos]
      cases gl2
      cases gl1
      simp only at hb ha
      rw [hb, ha]
  rw [hrun2, heq]

theorem C14_bind_all_is_idempotent_witness :
    Sample.twoLoaded.m_loadedTextures ≤ 16 ∧
    ∃ gl1 : GLState, Sample.twoLoaded.BindGLTextures Sample.gl0 =
        Except.ok (Sample.twoLoaded, gl1) ∧
      (∀ (u : Nat) (r : TEXTURE_INFO), u < Sample.twoLoaded.m_loadedTextures →
        Sample.twoLoaded.textureAt u = Except.ok r → gl1.boundTexture2D u = r.ID) ∧
      (∀ u : Nat, Sample.twoLoaded.m_loadedTextures ≤ u →
        gl1.boundTexture2D u = Sample.gl0.boundTexture2D u) ∧
      (0 < Sample.twoLoaded.m_loadedTextures →
        gl1.activeTexture = Sample.twoLoaded.m_loadedTextures - 1) ∧
      (Sample.twoLoaded.m_loadedTextures = 0 → gl1 = Sample.gl0) ∧
      Sample.twoLoaded.BindGLTextures gl1 = Except.ok (Sample.twoLoaded, gl1) :=
  ⟨by decide, C14_bind_all_is_idempotent Sample.twoLoaded Sample.gl0 (by decide)⟩

/-! ## What each binder operation uploads -/

/-- Uploads under other names leave the current value of a uniform as it was. -/
theorem uniform_frame (sm : ShaderManager α) (added : List (String × UniformValue α))
    (name : String) (h : ∀ p : String × UniformValue α, p ∈ added → p.1 ≠ name) :
    (⟨added ++ sm.uploads⟩ : ShaderManager α).uniform name = sm.uniform name := by
  unfold ShaderManager.uniform
  simp only
  induction added with
  | nil => rfl
  | cons p rest ih =>
    have hp : p.1 ≠ name := h p (List.mem_cons_self _ _)
    have hbeq : (name == p.1) = false := by
      rw [beq_eq_false_iff_ne]
      exact fun e => hp e.symm
    obtain ⟨k, val⟩ := p
    simp only [List.cons_append, List.lookup, hbeq]
    exact ih (fun q hq => h q (List.mem_cons_of_mem _ hq))

/-- What `SetTextureUVScale` does when a shader manager is present. -/
theorem SetTextureUVScale_some (s : SceneManager α) (sm : ShaderManager α)
    (hsm : s.m_pShaderManager = some sm) (u v : α) :
    s.SetTextureUVScale u v =
      { s with m_pShaderManager := some (sm.setVec2Value "UVscale" ⟨u, v⟩) } := by
  unfold SetTextureUVScale
  rw [hsm]

/-- What `SetTransformations` does when a shader manager is present: one
upload, under "model". -/
theorem SetTransformations_some [Ring α] (mth : glm.Math α) (s : SceneManager α)
    (sm : ShaderManager α) (hsm : s.m_pShaderManager = some sm) (scaleXYZ : glm.vec3 α)
    (x y z : α) (positionXYZ : glm.vec3 α) :
    ∃ M : glm.mat4 α,
      s.SetTransformations mth scaleXYZ x y z positionXYZ =
        { s with m_pShaderManager := some (sm.setMat4Value g_ModelName M) } := by
  unfold SetTransformations
  rw [hsm]
  exact ⟨_, rfl⟩

/-- C15: on a manager with a shader manager and the load counter within the
table, every binder operation hands back the manager with the texture table,
the load counter and the material library as they were and with uploads added
under its own names only: SetTransformations under "model"; SetShaderColor
under "bUseTexture" and "objectColor"; SetShaderTexture under "bUseTexture" and
"objectTexture"; SetShaderTextureOverlay under "bUseTextureOverlay" and, for a
non-empty tag only, "overlayTexture"; SetTextureUVScale under "UVscale", which
becomes (u,v); SetShaderMaterial under the three material names.  Uploads under
other names leave a uniform at its previous value. -/
theorem C15_binder_operations_frame [Ring α] (mth : glm.Math α) (s : SceneManager α)
    (sm : ShaderManager α) (hsm : s.m_pShaderManager = some sm)
    (hcap : s.m_loadedTextures ≤ 16)
    (scaleXYZ : glm.vec3 α) (x y z : α) (positionXYZ : glm.vec3 α) (r g b a : α)
    (tag : String) (u v : α) (materialTag : String) (material : OBJECT_MATERIAL α) :
    (∃ added : List (String × UniformValue α),
      s.SetTransformations mth scaleXYZ x y z positionXYZ =
        { s with m_pShaderManager := some ⟨added ++ sm.uploads⟩ } ∧
      ∀ p : String × UniformValue α, p ∈ added → p.1 = "model") ∧
    (∃ added : List (String × UniformValue α),
      s.SetShaderColor r g b a = { s with m_pShaderManager := some ⟨added ++ sm.uploads⟩ } ∧
      ∀ p : String × UniformValue α, p ∈ added →
        p.1 = "bUseTexture" ∨ p.1 = "objectColor") ∧
    (∃ added : List (String × UniformValue α),
      s.SetShaderTexture tag =
        Except.ok { s with m_pShaderManager := some ⟨added ++ sm.uploads⟩ } ∧
      ∀ p : String × UniformValue α, p ∈ added →
        p.1 = "bUseTexture" ∨ p.1 = "objectTexture") ∧
    (∃ added : List (String × UniformValue α),
      s.SetShaderTextureOverlay tag =
        Except.ok { s with m_pShaderManager := some ⟨added ++ sm.uploads⟩ } ∧
      ∀ p : String × UniformValue α, p ∈ added →
        p.1 = "bUseTextureOverlay" ∨ (tag ≠ "" ∧ p.1 = "overlayTexture")) ∧
    (∃ added : List (String × UniformValue α),
      s.SetTextureUVScale u v = { s with m_pShaderManager := some ⟨added ++ sm.uploads⟩ } ∧
      (∀ p : String × UniformValue α, p ∈ added → p.1 = "UVscale") ∧
      (⟨added ++ sm.uploads⟩ : ShaderManager α).uniform "UVscale" =
        some (UniformValue.vec2 ⟨u, v⟩)) ∧
    (∃ added : List (String × UniformValue α),
      s.SetShaderMaterial materialTag material =
        Except.ok { s with m_pShaderManager := some ⟨added ++ sm.uploads⟩ } ∧
      ∀ p : String × UniformValue α, p ∈ added →
        p.1 = "material.diffuseColor" ∨ p.1 = "material.specularColor" ∨
          p.1 = "material.shininess") ∧
    (∀ (added : List (String × UniformValue α)) (name : String),
      (∀ p : String × UniformValue α, p ∈ added → p.1 ≠ name) →
      (⟨added ++ sm.uploads⟩ : ShaderManager α).uniform name = sm.uniform name) := by
  obtain ⟨slot, hslot, -⟩ := FindTextureSlot_total s tag hcap
  have hself : s = { s with m_pShaderManager := some ⟨[] ++ sm.uploads⟩ } := by
    cases s
    simp only at hsm
    subst hsm
    rfl
  refine ⟨?_, ?_, ?_, ?_, ?_, ?_, fun added name h => uniform_frame sm added name h⟩
  · obtain ⟨M, hM⟩ := SetTransformations_some mth s sm hsm scaleXYZ x y z positionXYZ
    refine ⟨[(g_ModelName, UniformValue.mat4 M)], hM, ?_⟩
    intro p hp
    simp only [List.mem_singleton] at hp
    rw [hp]
    rfl
  · refine ⟨[(g_ColorValueName, UniformValue.vec4 ⟨r, g, b, a⟩),
      (g_UseTextureName, UniformValue.int (boolToInt false))],
      SetShaderColor_some s sm hsm r g b a, ?_⟩
    intro p hp
    simp only [List.mem_cons, List.mem_singleton, List.not_mem_nil, or_false] at hp
    rcases hp with rfl | rfl
    · exact Or.inr rfl
    · exact Or.inl rfl
  · refine ⟨[(g_TextureValueName, UniformValue.sampler2D slot),
      (g_UseTextureName, UniformValue.int (boolToInt true))],
      SetShaderTexture_some s sm hsm tag slot hslot, ?_⟩
    intro p hp
    simp only [List.mem_cons, List.mem_singleton, List.not_mem_nil, or_false] at hp
    rcases hp with rfl | rfl
    · exact Or.inr rfl
    · exact Or.inl rfl
  · by_cases hne : tag = ""
    · subst hne
      refine ⟨[(g_UseTextureOverlayName, UniformValue.int (boolToInt false))],
        SetShaderTextureOverlay_empty s sm hsm, ?_⟩
      intro p hp
      simp only [List.mem_singleton] at hp
      rw [hp]
      exact Or.inl rfl
    · refine ⟨[(g_TextureOverlayValueName, UniformValue.sampler2D slot),
        (g_UseTextureOverlayName, UniformValue.int (boolToInt true))],
        SetShaderTextureOverlay_some s sm hsm tag slot
          (string_length_pos_of_ne_empty tag hne) hslot, ?_⟩
      intro p hp
      simp only [List.mem_cons, List.mem_singleton, List.not_mem_nil, or_false] at hp
      rcases hp with rfl | rfl
      · exact Or.inr ⟨hne, rfl⟩
      · exact Or.inl rfl
  · refine ⟨[("UVscale", UniformValue.vec2 ⟨u, v⟩)], SetTextureUVScale_some s sm hsm u v, ?_, ?_⟩
    · intro p hp
      simp only [List.mem_singleton] at hp
      rw [hp]
    · simp [ShaderManager.uniform, List.lookup]
  · by_cases hempty : s.m_objectMaterials = []
    · refine ⟨[], ?_, ?_⟩
      · rw [SetShaderMaterial_empty s materialTag material hempty]
        exact congrArg Except.ok hself
      · intro p hp
        simp at hp
    · obtain ⟨found, hfind⟩ := FindMaterial_total s materialTag material hempty
      refine ⟨[("material.shininess", UniformValue.float found.shininess),
        ("material.specularColor", UniformValue.vec3 found.specularColor),
        ("material.diffuseColor", UniformValue.vec3 found.diffuseColor)],
        SetShaderMaterial_some s sm materialTag material found hsm hfind, ?_⟩
      intro p hp
      simp only [List.mem_cons, List.mem_singleton, List.not_mem_nil, or_false] at hp
      rcases hp with rfl | rfl | rfl
      · exact Or.inr (Or.inr rfl)
      · exact Or.inr (Or.inl rfl)
      · exact Or.inl rfl

theorem C15_binder_operations_frame_witness :
    Sample.withMaterials.m_pShaderManager = some ⟨[]⟩ ∧
    Sample.withMaterials.m_loadedTextures ≤ 16 ∧
    (∃ added : List (String × UniformValue ℚ),
      Sample.withMaterials.SetTextureUVScale 2 1 =
        { Sample.withMaterials with
          m_pShaderManager := some ⟨added ++ (⟨[]⟩ : ShaderManager ℚ).uploads⟩ } ∧
      (∀ p : String × UniformValue ℚ, p ∈ added → p.1 = "UVscale") ∧
      (⟨added ++ (⟨[]⟩ : ShaderManager ℚ).uploads⟩ : ShaderManager ℚ).uniform "UVscale" =
        some (UniformValue.vec2 ⟨2, 1⟩)) ∧
    (∃ added : List (String × UniformValue ℚ),
      Sample.withMaterials.SetShaderMaterial "wood" Sample.blank =
        Except.ok { Sample.withMaterials with
          m_pShaderManager := some ⟨added ++ (⟨[]⟩ : ShaderManager ℚ).uploads⟩ } ∧
      ∀ p : String × UniformValue ℚ, p ∈ added →
        p.1 = "material.diffuseColor" ∨ p.1 = "material.specularColor" ∨
          p.1 = "material.shininess") :=
  ⟨rfl, by decide,
    (C15_binder_operations_frame Sample.mathQ Sample.withMaterials ⟨[]⟩ rfl (by decide)
      ⟨2, 1, 1⟩ 0 90 0 ⟨5, 0, 0⟩ 1 0 0 1 "Glass" 2 1 "wood" Sample.blank).2.2.2.2.1,
    (C15_binder_operations_frame Sample.mathQ Sample.withMaterials ⟨[]⟩ rfl (by decide)
      ⟨2, 1, 1⟩ 0 90 0 ⟨5, 0, 0⟩ 1 0 0 1 "Glass" 2 1 "wood" Sample.blank).2.2.2.2.2.1⟩

/-! ## The scene -/

theorem LoadSceneTextures_tags (stbi_load : String → Option Image) (names : Nat → GLuint) :
    (LoadSceneTextures.calls stbi_load names).map LoadCall.tag =
      ["Wood Table", "Cylinder Overlay", "Stripes2", "Black Wood", "transparent",
        "Gold Leaves", "Gold Leaves2", "Candle Holder", "Wet Glass", "Pumpkin3", "Stem",
        "backdrop2"] :=
  rfl

theorem RenderScene_textureTags [Field α] :
    Step.textureTags (RenderScene.steps : List (Step α)) =
      ["Wood Table", "backdrop2", "Wet Glass", "Candle Holder", "Cylinder Overlay",
        "Candle Holder", "Candle Holder", "Stripes2", "transparent", "Black Wood",
        "Gold Leaves", "Gold Leaves", "Gold Leaves2", "Gold Leaves2", "Pumpkin3", "Stem"] :=
  rfl

theorem RenderScene_materialTags [Field α] :
    Step.materialTags (RenderScene.steps : List (Step α)) =
      ["wood", "backdrop", "glass", "glass", "glass", "glass", "glass", "wood", "wood",
        "wood", "gold", "gold", "gold", "gold", "wood", "glass", "wood"] :=
  rfl

/-- With a shader manager present `SetupSceneLights` returns, and changes the
shader manager only. -/
theorem SetupSceneLights_some [Field α] (mth : glm.Math α) (s : SceneManager α)
    (sm : ShaderManager α) (hsm : s.m_pShaderManager = some sm) :
    ∃ sm1 : ShaderManager α,
      s.SetupSceneLights mth = Except.ok { s with m_pShaderManager := some sm1 } := by
  unfold SetupSceneLights
  rw [hsm]
  exact ⟨_, rfl⟩

/-- With a shader manager present and the load counter within the table, one
statement of `RenderScene` returns, and changes the shader manager only. -/
theorem Step_run_some [Field α] (mth : glm.Math α) (material : OBJECT_MATERIAL α)
    (s : SceneManager α) (sm : ShaderManager α) (hsm : s.m_pShaderManager = some sm)
    (hcap : s.m_loadedTextures ≤ 16) (step : Step α) :
    ∃ sm1 : ShaderManager α,
      step.run mth material s = Except.ok { s with m_pShaderManager := some sm1 } := by
  have hself : s = { s with m_pShaderManager := some sm } := by
    cases s
    simp only at hsm
    subst hsm
    rfl
  cases step with
  | setTransformations scaleXYZ x y z positionXYZ =>
    obtain ⟨M, hM⟩ := SetTransformations_some mth s sm hsm scaleXYZ x y z positionXYZ
    exact ⟨_, congrArg Except.ok hM⟩
  | setShaderColor r g b a =>
    exact ⟨_, congrArg Except.ok (SetShaderColor_some s sm hsm r g b a)⟩
  | setShaderTexture tag =>
    obtain ⟨slot, hslot, -⟩ := FindTextureSlot_total s tag hcap
    exact ⟨_, SetShaderTexture_some s sm hsm tag slot hslot⟩
  | setShaderTextureOverlay tag =>
    by_cases hne : tag = ""
    · subst hne
      exact ⟨_, SetShaderTextureOverlay_empty s sm hsm⟩
    · obtain ⟨slot, hslot, -⟩ := FindTextureSlot_total s tag hcap
      exact ⟨_, SetShaderTextureOverlay_some s sm hsm tag slot
        (string_length_pos_of_ne_empty tag hne) hslot⟩
  | setTextureUVScale u v =>
    exact ⟨_, congrArg Except.ok (SetTextureUVScale_some s sm hsm u v)⟩
  | setShaderMaterial tag =>
    by_cases hempty : s.m_objectMaterials = []
    · exact ⟨sm, (SetShaderMaterial_empty s tag material hempty).trans
        (congrArg Except.ok hself)⟩
    · obtain ⟨found, hfind⟩ := FindMaterial_total s tag material hempty
      exact ⟨_, SetShaderMaterial_some s sm tag material found hsm hfind⟩
  | draw call =>
    exact ⟨sm, congrArg Except.ok hself⟩

/-- With a shader manager present and the load counter within the table, a run
of statements returns, and changes the shader manager only. -/
theorem runSteps_some [Field α] (mth : glm.Math α) (material : OBJECT_MATERIAL α)
    (steps : List (Step α)) :
    ∀ (s : SceneManager α) (sm : ShaderManager α), s.m_pShaderManager = some sm →
      s.m_loadedTextures ≤ 16 →
      ∃ sm1 : ShaderManager α,
        runSteps mth material s steps = Except.ok { s with m_pShaderManager := some sm1 } := by
  induction steps with
  | nil =>
    intro s sm hsm _
    refine ⟨sm, ?_⟩
    cases s
    simp only at hsm
    subst hsm
    rfl
  | cons step rest ih =>
    intro s sm hsm hcap
    obtain ⟨sm1, hstep⟩ := Step_run_some mth material s sm hsm hcap step
    obtain ⟨sm2, hrest⟩ := ih { s with m_pShaderManager := some sm1 } sm1 rfl hcap
    refine ⟨sm2, ?_⟩
    simp only [runSteps, hstep]
    exact hrest

/-- The registry after `LoadSceneTextures` on a fresh manager when all twelve
loads decode: twelve records, record `k` carrying the tag and name of call
`k`. -/
theorem LoadSceneTextures_spec (p : Option (ShaderManager α))
    (stbi_load : String → Option Image) (names : Nat → GLuint)
    (hload : ∀ c : LoadCall, c ∈ LoadSceneTextures.calls stbi_load names → c.decodes = true) :
    ∃ s1 : SceneManager α,
      (new p).LoadSceneTextures stbi_load names = Except.ok s1 ∧
      s1.m_loadedTextures = 12 ∧
      s1.m_pShaderManager = p ∧
      s1.m_objectMaterials = [] ∧
      (∀ (k : Nat) (c : LoadCall), (LoadSceneTextures.calls stbi_load names)[k]? = some c →
        s1.textureAt k = Except.ok ⟨c.tag, c.textureID⟩) := by
  have hsucc : LoadCall.successes (LoadSceneTextures.calls stbi_load names) =
      LoadSceneTextures.calls stbi_load names := by
    unfold LoadCall.successes
    exact List.filter_eq_self.mpr hload
  have hlen : (LoadSceneTextures.calls stbi_load names).length = 12 := rfl
  have h0 : (new p : SceneManager α).m_loadedTextures = 0 := rfl
  obtain ⟨s1, hrun, hn, hsm, hmat, -, -, hnew⟩ :=
    loadSequence_spec (LoadSceneTextures.calls stbi_load names) (new p : SceneManager α)
      (by rw [hsucc, hlen, h0]; omega)
  rw [hsucc] at hn hnew
  rw [hlen, h0] at hn
  simp only [h0, Nat.zero_add] at hnew
  exact ⟨s1, hrun, by omega, hsm, hmat, hnew⟩

/-- C16: on a fresh manager, when each of the twelve loads of LoadSceneTextures
decodes with 3 or 4 channels, the registering steps of PrepareScene
(LoadSceneTextures, then DefineObjectMaterials) leave exactly 12 textures with
pairwise distinct tags and 6 materials; every tag RenderScene passes to
SetShaderTexture or, when not empty, to SetShaderTextureOverlay resolves
through FindTextureSlot to a slot in 0..11, and every tag it passes to
SetShaderMaterial is the tag of a defined material.  When the manager was
constructed with a shader manager, PrepareScene returns with that table, load
counter and library, and RenderScene runs to its end without changing them. -/
theorem C16_scene_lookups_resolve [Field α] (mth : glm.Math α)
    (p : Option (ShaderManager α)) (stbi_load : String → Option Image)
    (names : Nat → GLuint) (gl : GLState)
    (hload : ∀ c : LoadCall, c ∈ LoadSceneTextures.calls stbi_load names → c.decodes = true) :
    ∃ s1 : SceneManager α,
      (new p).LoadSceneTextures stbi_load names = Except.ok s1 ∧
      s1.DefineObjectMaterials.m_loadedTextures = 12 ∧
      (∀ (i j : Nat) (qi qj : TEXTURE_INFO), i < 12 → j < 12 →
        s1.DefineObjectMaterials.textureAt i = Except.ok qi →
        s1.DefineObjectMaterials.textureAt j = Except.ok qj →
        qi.tag = qj.tag → i = j) ∧
      s1.DefineObjectMaterials.m_objectMaterials.length = 6 ∧
      (∀ tag : String, tag ∈ Step.textureTags (RenderScene.steps : List (Step α)) →
        ∃ k : Int, s1.DefineObjectMaterials.FindTextureSlot tag = Except.ok k ∧
          0 ≤ k ∧ k ≤ 11) ∧
      (∀ tag : String, tag ∈ Step.materialTags (RenderScene.steps : List (Step α)) →
        ∃ r : OBJECT_MATERIAL α,
          r ∈ s1.DefineObjectMaterials.m_objectMaterials ∧ r.tag = tag) ∧
      (∀ sm : ShaderManager α, p = some sm →
        ∃ (t : SceneManager α) (gl1 : GLState),
          PrepareScene mth (new p) stbi_load names gl = Except.ok (t, gl1) ∧
          t.m_textureIDs = s1.DefineObjectMaterials.m_textureIDs ∧
          t.m_loadedTextures = 12 ∧
          t.m_objectMaterials = s1.DefineObjectMaterials.m_objectMaterials ∧
          (∀ tag : String,
            t.FindTextureSlot tag = s1.DefineObjectMaterials.FindTextureSlot tag) ∧
          (∀ material : OBJECT_MATERIAL α,
            ∃ u : SceneManager α, t.RenderScene mth material = Except.ok u ∧
              u.m_textureIDs = t.m_textureIDs ∧ u.m_loadedTextures = t.m_loadedTextures ∧
              u.m_objectMaterials = t.m_objectMaterials)) := by
  obtain ⟨s1, hrun, hn, hsm, hmat, hnew⟩ :=
    LoadSceneTextures_spec p stbi_load names hload
  have hlen : (LoadSceneTextures.calls stbi_load names).length = 12 := rfl
  have hcalls : ∀ k : Nat, k < 12 → ∃ c : LoadCall,
      (LoadSceneTextures.calls stbi_load names)[k]? = some c ∧
      s1.textureAt k = Except.ok ⟨c.tag, c.textureID⟩ := by
    intro k hk
    have hget := List.getElem?_eq_getElem (l := LoadSceneTextures.calls stbi_load names)
      (by rw [hlen]; exact hk)
    exact ⟨_, hget, hnew k _ hget⟩
  refine ⟨s1, hrun, hn, ?_, ?_, ?_, ?_, ?_⟩
  · intro i j qi qj hi hj hqi hqj htag
    obtain ⟨ci, hci, hsi⟩ := hcalls i hi
    obtain ⟨cj, hcj, hsj⟩ := hcalls j hj
    have hqi1 : s1.textureAt i = Except.ok qi := hqi
    have hqj1 : s1.textureAt j = Except.ok qj := hqj
    rw [hsi] at hqi1
    rw [hsj] at hqj1
    cases hqi1
    cases hqj1
    have hnodup : ((LoadSceneTextures.calls stbi_load names).map LoadCall.tag).Nodup := by
      rw [LoadSceneTextures_tags]
      decide
    have hti : ((LoadSceneTextures.calls stbi_load names).map LoadCall.tag)[i]? =
        some ci.tag := by
      rw [List.getElem?_map, hci]
      rfl
    have htj : ((LoadSceneTextures.calls stbi_load names).map LoadCall.tag)[j]? =
        some cj.tag := by
      rw [List.getElem?_map, hcj]
      rfl
    have hlenm : ((LoadSceneTextures.calls stbi_load names).map LoadCall.tag).length = 12 :=
      rfl
    rcases Nat.lt_trichotomy i j with hlt | heq | hgt
    · exact absurd (by rw [hti, htj]; exact congrArg some htag)
        (List.nodup_iff_getElem?_ne_getElem?.mp hnodup i j hlt (by omega))
    · exact heq
    · exact absurd (by rw [hti, htj]; exact congrArg some htag.symm)
        (List.nodup_iff_getElem?_ne_getElem?.mp hnodup j i hgt (by omega))
  · simp [DefineObjectMaterials, push_back, hmat]
  · intro tag htag
    rw [RenderScene_textureTags] at htag
    have hmem : tag ∈ (LoadSceneTextures.calls stbi_load names).map LoadCall.tag := by
      rw [LoadSceneTextures_tags]
      revert tag
      decide
    obtain ⟨c0, hc0, hc0t⟩ := List.mem_map.mp hmem
    obtain ⟨i, c, hic, hct, hfirst⟩ :=
      exists_first_call_with_tag tag (LoadSceneTextures.calls stbi_load names) ⟨c0, hc0, hc0t⟩
    have hilt : i < 12 := by
      rcases Nat.lt_or_ge i 12 with h | h
      · exact h
      · rw [List.getElem?_eq_none (by rw [hlen]; exact h)] at hic
        cases hic
    have hfind : s1.FindTextureSlot tag = Except.ok (i : Int) := by
      refine FindTextureSlot_first s1 tag (by omega) i ⟨c.tag, c.textureID⟩ (by omega)
        (hnew i c hic) hct ?_
      intro j q hj hq
      obtain ⟨cj, hcj, hsj⟩ := hcalls j (by omega)
      rw [hsj] at hq
      cases hq
      exact hfirst j cj hj hcj
    refine ⟨(i : Int), ?_, by omega, by omega⟩
    rw [← hfind]
    exact FindTextureSlot_congr _ _ tag rfl rfl
  · intro tag htag
    rw [RenderScene_materialTags] at htag
    have hmem : tag ∈ ["metal", "wood", "glass", "gold", "tile", "backdrop"] := by
      revert tag
      decide
    simp only [DefineObjectMaterials, push_back, hmat, List.nil_append, List.cons_append,
      List.mem_cons, List.mem_singleton, List.not_mem_nil, or_false] at hmem ⊢
    rcases hmem with rfl | rfl | rfl | rfl | rfl | rfl
    · exact ⟨_, Or.inl rfl, rfl⟩
    · exact ⟨_, Or.inr (Or.inl rfl), rfl⟩
    · exact ⟨_, Or.inr (Or.inr (Or.inl rfl)), rfl⟩
    · exact ⟨_, Or.inr (Or.inr (Or.inr (Or.inl rfl))), rfl⟩
    · exact ⟨_, Or.inr (Or.inr (Or.inr (Or.inr (Or.inl rfl)))), rfl⟩
    · exact ⟨_, Or.inr (Or.inr (Or.inr (Or.inr (Or.inr rfl)))), rfl⟩
  · intro sm hp
    subst hp
    obtain ⟨gl1, hbind, -⟩ := BindGLTextures_spec s1 gl (by omega)
    obtain ⟨smL, hlights⟩ :=
      SetupSceneLights_some mth s1.DefineObjectMaterials sm hsm
    have hprep : PrepareScene mth (new (some sm)) stbi_load names gl =
        Except.ok ({ s1.DefineObjectMaterials with m_pShaderManager := some smL }, gl1) := by
      unfold PrepareScene
      simp only [hrun, hbind, hlights]
    refine ⟨_, gl1, hprep, rfl, hn, rfl, fun tag => FindTextureSlot_congr _ _ tag rfl rfl, ?_⟩
    intro material
    obtain ⟨sm2, hrender⟩ := runSteps_some mth material RenderScene.steps
      { s1.DefineObjectMaterials with m_pShaderManager := some smL } smL rfl
      (by
        have h : ({ s1.DefineObjectMaterials with m_pShaderManager := some smL } :
            SceneManager α).m_loadedTextures = s1.m_loadedTextures := rfl
        rw [h]
        omega)
    exact ⟨_, hrender, rfl, rfl, rfl⟩

theorem C16_scene_lookups_resolve_witness :
    (∀ c : LoadCall, c ∈ LoadSceneTextures.calls Sample.decodeAll Sample.freshNames →
      c.decodes = true) ∧
    ∃ s1 : SceneManager ℚ,
      (new (some ⟨[]⟩)).LoadSceneTextures Sample.decodeAll Sample.freshNames = Except.ok s1 ∧
      s1.DefineObjectMaterials.m_loadedTextures = 12 ∧
      s1.DefineObjectMaterials.m_objectMaterials.length = 6 ∧
      (∀ tag : String, tag ∈ Step.textureTags (RenderScene.steps : List (Step ℚ)) →
        ∃ k : Int, s1.DefineObjectMaterials.FindTextureSlot tag = Except.ok k ∧
          0 ≤ k ∧ k ≤ 11) ∧
      (∀ tag : String, tag ∈ Step.materialTags (RenderScene.steps : List (Step ℚ)) →
        ∃ r : OBJECT_MATERIAL ℚ,
          r ∈ s1.DefineObjectMaterials.m_objectMaterials ∧ r.tag = tag) :=
  ⟨by decide,
    match C16_scene_lookups_resolve Sample.mathQ (some ⟨[]⟩) Sample.decodeAll
      Sample.freshNames Sample.gl0 (by decide) with
    | ⟨s1, hrun, hn, _, hlen, htex, hmat, _⟩ => ⟨s1, hrun, hn, hlen, htex, hmat⟩⟩

/-! ## A null shader manager -/

/-- C17: on a manager constructed with a null shader manager whose material
library is not empty, SetShaderMaterial does not complete: after FindMaterial
returns true it calls through the null pointer.  The other five binder
operations return the manager unchanged on the same input. -/
theorem C17_material_upload_through_null :
    Sample.nullManager.m_pShaderManager = none ∧
    Sample.nullManager.SetShaderMaterial "wood" Sample.blank =
      Except.error Fault.nullPointer ∧
    Sample.nullManager.SetShaderMaterial "no such tag" Sample.blank =
      Except.error Fault.nullPointer ∧
    Sample.nullManager.SetTransformations Sample.mathQ ⟨2, 1, 1⟩ 0 90 0 ⟨5, 0, 0⟩ =
      Sample.nullManager ∧
    Sample.nullManager.SetShaderColor 1 0 0 1 = Sample.nullManager ∧
    Sample.nullManager.SetShaderTexture "Wood" = Except.ok Sample.nullManager ∧
    Sample.nullManager.SetShaderTextureOverlay "Wood" = Except.ok Sample.nullManager ∧
    Sample.nullManager.SetShaderTextureOverlay "" = Except.ok Sample.nullManager ∧
    Sample.nullManager.SetTextureUVScale 1 1 = Sample.nullManager :=
  ⟨rfl, by decide, by decide, by decide, by decide, by decide, by decide, by decide,
    by decide⟩

end SceneManager
